import Mathlib

/-!
Verification of the PKCS#5 key-derivation module (src/openssl/src/crypto/pkcs5.rs).

The Rust module is a thin wrapper over two native OpenSSL primitives:
EVP_BytesToKey (legacy hash-chaining key+IV derivation) and
PKCS5_PBKDF2_HMAC_SHA1 (PBKDF2 with HMAC-SHA1).  The wrapper code (argument
validation by assertions, buffer allocation, panic on primitive failure) is
embedded here directly from the Rust source; the native primitives, the hash
functions they use, and the cipher metadata table are not part of the crate
sources, so they are modelled from the specification (spec.md sections 4.1,
4.2 and 6), instantiated with the standard SHA-1 / MD5 / HMAC algorithms the
spec names.

Bytes are modelled as Nat (0..255), byte strings as List Nat.  A Rust panic
(assertion failure or explicit panic) is modelled as the Outcome.panic
constructor, carrying the spec's name for the violated condition; a
recoverable error return would be Outcome.err, which the wrapper never
produces.

The SHA-1 compression function is implemented over a packed representation
(one Nat for the five-word state, one Nat for the sixteen-word schedule
window) so that concrete evaluations reduce to arithmetic on machine-backed
Nat literals; the byte-list interface on top of it is related to the packed
hot loop by proved packing lemmas.
-/

set_option exponentiation.threshold 600
set_option maxRecDepth 100000

/-- Arithmetic helper: the 480-bit mask used to slide the SHA-1 schedule window. -/
def MASK480 : Nat := 0xFFFFFFFFFFFFFFFFFFFFFFFFFFFFFFFFFFFFFFFFFFFFFFFFFFFFFFFFFFFFFFFFFFFFFFFFFFFFFFFFFFFFFFFFFFFFFFFFFFFFFFFFFFFFFFFFFFFFFFFF

/-- SHA-1 rounds 60-79 (f = parity, K = 0xCA62C1D6) over the packed state.
The first argument is the remaining round count; the second is the schedule
window (W[t..t+15] packed big-endian in a 512-bit Nat); the rest is the
working state a,b,c,d,e.  The base case packs a,b,c,d,e into a 160-bit Nat. -/
def sha1G4 : Nat → Nat → Nat → Nat → Nat → Nat → Nat → Nat
  | 0, _, a, b, c, d, e =>
      Nat.lor (Nat.shiftLeft (Nat.lor (Nat.shiftLeft (Nat.lor (Nat.shiftLeft (Nat.lor (Nat.shiftLeft a 32) b) 32) c) 32) d) 32) e
  | fuel + 1, w, a, b, c, d, e =>
      let wt := Nat.shiftRight w 480
      let x := Nat.land (Nat.xor (Nat.xor (Nat.shiftRight w 416) (Nat.shiftRight w 224)) (Nat.xor (Nat.shiftRight w 64) wt)) 0xFFFFFFFF
      let w2 := Nat.lor (Nat.shiftLeft (Nat.land w MASK480) 32) (Nat.land (Nat.lor (Nat.shiftLeft x 1) (Nat.shiftRight x 31)) 0xFFFFFFFF)
      let f := Nat.xor (Nat.xor b c) d
      let t1 := Nat.land (Nat.add (Nat.add (Nat.add (Nat.lor (Nat.shiftLeft a 5) (Nat.shiftRight a 27)) f) (Nat.add e 0xCA62C1D6)) wt) 0xFFFFFFFF
      sha1G4 fuel w2 t1 a (Nat.land (Nat.lor (Nat.shiftLeft b 30) (Nat.shiftRight b 2)) 0xFFFFFFFF) c d

/-- SHA-1 rounds 40-59 (f = majority, K = 0x8F1BBCDC); continues with sha1G4. -/
def sha1G3 : Nat → Nat → Nat → Nat → Nat → Nat → Nat → Nat
  | 0, w, a, b, c, d, e => sha1G4 20 w a b c d e
  | fuel + 1, w, a, b, c, d, e =>
      let wt := Nat.shiftRight w 480
      let x := Nat.land (Nat.xor (Nat.xor (Nat.shiftRight w 416) (Nat.shiftRight w 224)) (Nat.xor (Nat.shiftRight w 64) wt)) 0xFFFFFFFF
      let w2 := Nat.lor (Nat.shiftLeft (Nat.land w MASK480) 32) (Nat.land (Nat.lor (Nat.shiftLeft x 1) (Nat.shiftRight x 31)) 0xFFFFFFFF)
      let f := Nat.lor (Nat.lor (Nat.land b c) (Nat.land b d)) (Nat.land c d)
      let t1 := Nat.land (Nat.add (Nat.add (Nat.add (Nat.lor (Nat.shiftLeft a 5) (Nat.shiftRight a 27)) f) (Nat.add e 0x8F1BBCDC)) wt) 0xFFFFFFFF
      sha1G3 fuel w2 t1 a (Nat.land (Nat.lor (Nat.shiftLeft b 30) (Nat.shiftRight b 2)) 0xFFFFFFFF) c d

/-- SHA-1 rounds 20-39 (f = parity, K = 0x6ED9EBA1); continues with sha1G3. -/
def sha1G2 : Nat → Nat → Nat → Nat → Nat → Nat → Nat → Nat
  | 0, w, a, b, c, d, e => sha1G3 20 w a b c d e
  | fuel + 1, w, a, b, c, d, e =>
      let wt := Nat.shiftRight w 480
      let x := Nat.land (Nat.xor (Nat.xor (Nat.shiftRight w 416) (Nat.shiftRight w 224)) (Nat.xor (Nat.shiftRight w 64) wt)) 0xFFFFFFFF
      let w2 := Nat.lor (Nat.shiftLeft (Nat.land w MASK480) 32) (Nat.land (Nat.lor (Nat.shiftLeft x 1) (Nat.shiftRight x 31)) 0xFFFFFFFF)
      let f := Nat.xor (Nat.xor b c) d
      let t1 := Nat.land (Nat.add (Nat.add (Nat.add (Nat.lor (Nat.shiftLeft a 5) (Nat.shiftRight a 27)) f) (Nat.add e 0x6ED9EBA1)) wt) 0xFFFFFFFF
      sha1G2 fuel w2 t1 a (Nat.land (Nat.lor (Nat.shiftLeft b 30) (Nat.shiftRight b 2)) 0xFFFFFFFF) c d

/-- SHA-1 rounds 0-19 (f = choice, K = 0x5A827999); continues with sha1G2. -/
def sha1G1 : Nat → Nat → Nat → Nat → Nat → Nat → Nat → Nat
  | 0, w, a, b, c, d, e => sha1G2 20 w a b c d e
  | fuel + 1, w, a, b, c, d, e =>
      let wt := Nat.shiftRight w 480
      let x := Nat.land (Nat.xor (Nat.xor (Nat.shiftRight w 416) (Nat.shiftRight w 224)) (Nat.xor (Nat.shiftRight w 64) wt)) 0xFFFFFFFF
      let w2 := Nat.lor (Nat.shiftLeft (Nat.land w MASK480) 32) (Nat.land (Nat.lor (Nat.shiftLeft x 1) (Nat.shiftRight x 31)) 0xFFFFFFFF)
      let f := Nat.lor (Nat.land b c) (Nat.land (Nat.xor b 0xFFFFFFFF) d)
      let t1 := Nat.land (Nat.add (Nat.add (Nat.add (Nat.lor (Nat.shiftLeft a 5) (Nat.shiftRight a 27)) f) (Nat.add e 0x5A827999)) wt) 0xFFFFFFFF
      sha1G1 fuel w2 t1 a (Nat.land (Nat.lor (Nat.shiftLeft b 30) (Nat.shiftRight b 2)) 0xFFFFFFFF) c d

/-- SHA-1 compression: processes one 512-bit block (packed big-endian in m)
from the 160-bit packed chaining state s, returning the new packed state. -/
def sha1Comp (s m : Nat) : Nat :=
  let r := sha1G1 20 m (Nat.land (Nat.shiftRight s 128) 0xFFFFFFFF) (Nat.land (Nat.shiftRight s 96) 0xFFFFFFFF)
      (Nat.land (Nat.shiftRight s 64) 0xFFFFFFFF) (Nat.land (Nat.shiftRight s 32) 0xFFFFFFFF) (Nat.land s 0xFFFFFFFF)
  Nat.lor (Nat.shiftLeft (Nat.land (Nat.add (Nat.shiftRight s 128) (Nat.shiftRight r 128)) 0xFFFFFFFF) 128)
    (Nat.lor (Nat.shiftLeft (Nat.land (Nat.add (Nat.shiftRight s 96) (Nat.shiftRight r 96)) 0xFFFFFFFF) 96)
      (Nat.lor (Nat.shiftLeft (Nat.land (Nat.add (Nat.shiftRight s 64) (Nat.shiftRight r 64)) 0xFFFFFFFF) 64)
        (Nat.lor (Nat.shiftLeft (Nat.land (Nat.add (Nat.shiftRight s 32) (Nat.shiftRight r 32)) 0xFFFFFFFF) 32)
          (Nat.land (Nat.add s r) 0xFFFFFFFF))))

/-- SHA-1 initial chaining state, packed. -/
def sha1IV : Nat := 0x67452301EFCDAB8998BADCFE10325476C3D2E1F0

/-- Packs a byte list big-endian into a Nat. -/
def packBytesBE : List Nat → Nat
  | [] => 0
  | b :: l => b * 2 ^ (8 * l.length) + packBytesBE l

/-- Unpacks the low 8*k bits of a Nat into a big-endian byte list of length k. -/
def natToBytesBE : Nat → Nat → List Nat
  | 0, _ => []
  | k + 1, n => (n / 2 ^ (8 * k)) % 256 :: natToBytesBE k n

/-- The 8-byte big-endian length field of SHA-1/MD5 padding. -/
def lenBytes64 (n : Nat) : List Nat := natToBytesBE 8 n

/-- Splits a byte list into chunks of 64 bytes (fuel-based recursion). -/
def chunksAux : Nat → List Nat → List (List Nat)
  | 0, _ => []
  | _ + 1, [] => []
  | fuel + 1, l => l.take 64 :: chunksAux fuel (l.drop 64)

/-- Splits a byte list into chunks of 64 bytes. -/
def chunks64 (l : List Nat) : List (List Nat) := chunksAux l.length l

/-- Folds the SHA-1 compression over a list of 64-byte chunks. -/
def compChunks : List (List Nat) → Nat → Nat
  | [], s => s
  | c :: cs, s => compChunks cs (sha1Comp s (packBytesBE c))

/-- Hashes the message m continuing from packed state st, where pre bytes
(a multiple of 64) have already been compressed into st; appends the standard
Merkle-Damgard padding for total length pre + m.length. -/
def sha1FromState (st : Nat) (pre : Nat) (m : List Nat) : Nat :=
  let total := pre + m.length
  let padded := m ++ 0x80 :: List.replicate ((64 - ((total + 9) % 64)) % 64) 0 ++ lenBytes64 (total * 8)
  compChunks (chunks64 padded) st

/-- Modelled from the spec: the SHA-1 hash collaborator (spec section 6, a
stateless hash over byte strings), instantiated with FIPS 180 SHA-1. -/
def sha1 (m : List Nat) : List Nat := natToBytesBE 20 (sha1FromState sha1IV 0 m)

/-- HMAC key normalisation: keys longer than the 64-byte block are hashed,
shorter keys are zero-padded to 64 bytes. -/
def hmacKeyBlock (key : List Nat) : List Nat :=
  let k0 := if key.length > 64 then sha1 key else key
  k0 ++ List.replicate (64 - k0.length) 0

/-- Packed SHA-1 state after absorbing the HMAC inner padding block. -/
def istOf (key : List Nat) : Nat :=
  sha1Comp sha1IV (packBytesBE ((hmacKeyBlock key).map (fun b => Nat.xor b 0x36)))

/-- Packed SHA-1 state after absorbing the HMAC outer padding block. -/
def ostOf (key : List Nat) : Nat :=
  sha1Comp sha1IV (packBytesBE ((hmacKeyBlock key).map (fun b => Nat.xor b 0x5C)))

/-- HMAC-SHA1 given the two precomputed pad states: the inner hash continues
from the inner-pad state over msg, the outer hash continues from the
outer-pad state over the 20-byte inner digest. -/
def hmacStates (ist ost : Nat) (msg : List Nat) : List Nat :=
  natToBytesBE 20 (sha1FromState ost 64 (natToBytesBE 20 (sha1FromState ist 64 msg)))

/-- Modelled from the spec: the HMAC-SHA1 collaborator (spec section 6,
a stateless keyed MAC returning 20 bytes), instantiated with RFC 2104
HMAC over SHA-1. -/
def hmacSha1 (key msg : List Nat) : List Nat := hmacStates (istOf key) (ostOf key) msg

/-- Byte-wise XOR of two byte strings. -/
def xorBytes (a b : List Nat) : List Nat := List.zipWith Nat.xor a b

/-- The 4-byte big-endian block-index encoding used by PBKDF2. -/
def be32 (i : Nat) : List Nat := natToBytesBE 4 i

/-- Modelled from the spec (section 4.2): the inner PBKDF2 iteration loop.
Given the pseudo-random function prf, performs the given number of further
iterations: u is the previous U value, acc the XOR accumulator; each step
computes the next U = prf(previous U) and XORs it into the accumulator. -/
def pbkdf2InnerF (prf : List Nat → List Nat) : Nat → List Nat → List Nat → List Nat
  | 0, _, acc => acc
  | j + 1, u, acc =>
      let u2 := prf u
      pbkdf2InnerF prf j u2 (xorBytes acc u2)

/-- Modelled from the spec (section 4.2): block T_i of PBKDF2-HMAC-SHA1.
U_1 = HMAC-SHA1(pass, salt || be32(i)); U_j = HMAC-SHA1(pass, U_(j-1)) for
j = 2..iter; T_i is the XOR of all U_j. -/
def pbkdf2T (pass salt : List Nat) (iter i : Nat) : List Nat :=
  let u1 := hmacSha1 pass (salt ++ be32 i)
  pbkdf2InnerF (hmacSha1 pass) (iter - 1) u1 u1

/-- Modelled from the spec (section 4.2): concatenation of the given number of
PBKDF2 blocks starting at block index i. -/
def pbkdf2Blocks (pass salt : List Nat) (iter : Nat) : Nat → Nat → List Nat
  | 0, _ => []
  | n + 1, i => pbkdf2T pass salt iter i ++ pbkdf2Blocks pass salt iter n (i + 1)

/-- Modelled from the spec (section 4.2): the native PKCS5_PBKDF2_HMAC_SHA1
primitive, which the Rust wrapper calls through FFI and whose body is not in
the crate sources.  With hLen = 20, computes ceil(keylen / 20) blocks and
truncates their concatenation to keylen bytes.  The Option result models the
primitive's integer status return (none would be a failure report, r != 1);
the modelled algorithm itself always succeeds. -/
def PKCS5_PBKDF2_HMAC_SHA1 (pass salt : List Nat) (iter keylen : Nat) : Option (List Nat) :=
  some (List.take keylen (pbkdf2Blocks pass salt iter ((keylen + 19) / 20) 1))

/-- Failure conditions named by the spec's error taxonomy (spec section 7). -/
inductive KdfError where
  | invalidSaltLength : KdfError
  | invalidIterationCount : KdfError
  | invalidParameter : KdfError
  | derivationFailed : KdfError
deriving DecidableEq

/-- Result of a call into the module.  ok is a normal return; err would be a
recoverable error value returned to the caller; panic models a Rust panic
(assertion failure or explicit panic), which terminates the process - the
carried KdfError names the spec's taxonomy entry for the violated condition.
The embedded wrapper code only ever produces ok or panic. -/
inductive Outcome (α : Type) where
  | ok : α → Outcome α
  | err : KdfError → Outcome α
  | panic : KdfError → Outcome α
deriving DecidableEq

/-- Embedded from pkcs5.rs lines 68-89, parameterised by the injected PBKDF2
primitive (spec section 6 injects the HMAC primitive; the Rust code calls
ffi::PKCS5_PBKDF2_HMAC_SHA1).  Mirrors: assert!(iter >= 1),
assert!(keylen >= 1) (panics, named InvalidParameter per spec section 4.2),
the primitive call, panic!() when the primitive reports failure (r != 1,
named DerivationFailed per spec section 7), and the return of the keylen
bytes written by the primitive. -/
def pbkdf2_hmac_sha1_with (prim : List Nat → List Nat → Nat → Nat → Option (List Nat))
    (pass salt : List Nat) (iter keylen : Nat) : Outcome (List Nat) :=
  if 1 ≤ iter then
    if 1 ≤ keylen then
      match prim pass salt iter keylen with
      | some out => Outcome.ok out
      | none => Outcome.panic KdfError.derivationFailed
    else Outcome.panic KdfError.invalidParameter
  else Outcome.panic KdfError.invalidParameter

/-- The module's pbkdf2_hmac_sha1 entry point (pkcs5.rs line 68): the wrapper
instantiated with the modelled native primitive. -/
def pbkdf2_hmac_sha1 : List Nat → List Nat → Nat → Nat → Outcome (List Nat) :=
  pbkdf2_hmac_sha1_with PKCS5_PBKDF2_HMAC_SHA1

/-- MD5 round constants (the standard floor(abs(sin(i+1)) * 2^32) table). -/
def md5K : List Nat :=
  [0xd76aa478, 0xe8c7b756, 0x242070db, 0xc1bdceee, 0xf57c0faf, 0x4787c62a, 0xa8304613, 0xfd469501,
   0x698098d8, 0x8b44f7af, 0xffff5bb1, 0x895cd7be, 0x6b901122, 0xfd987193, 0xa679438e, 0x49b40821,
   0xf61e2562, 0xc040b340, 0x265e5a51, 0xe9b6c7aa, 0xd62f105d, 0x02441453, 0xd8a1e681, 0xe7d3fbc8,
   0x21e1cde6, 0xc33707d6, 0xf4d50d87, 0x455a14ed, 0xa9e3e905, 0xfcefa3f8, 0x676f02d9, 0x8d2a4c8a,
   0xfffa3942, 0x8771f681, 0x6d9d6122, 0xfde5380c, 0xa4beea44, 0x4bdecfa9, 0xf6bb4b60, 0xbebfbc70,
   0x289b7ec6, 0xeaa127fa, 0xd4ef3085, 0x04881d05, 0xd9d4d039, 0xe6db99e5, 0x1fa27cf8, 0xc4ac5665,
   0xf4292244, 0x432aff97, 0xab9423a7, 0xfc93a039, 0x655b59c3, 0x8f0ccc92, 0xffeff47d, 0x85845dd1,
   0x6fa87e4f, 0xfe2ce6e0, 0xa3014314, 0x4e0811a1, 0xf7537e82, 0xbd3af235, 0x2ad7d2bb, 0xeb86d391]

/-- MD5 per-round left-rotation amounts. -/
def md5S : List Nat :=
  [7, 12, 17, 22, 7, 12, 17, 22, 7, 12, 17, 22, 7, 12, 17, 22,
   5, 9, 14, 20, 5, 9, 14, 20, 5, 9, 14, 20, 5, 9, 14, 20,
   4, 11, 16, 23, 4, 11, 16, 23, 4, 11, 16, 23, 4, 11, 16, 23,
   6, 10, 15, 21, 6, 10, 15, 21, 6, 10, 15, 21, 6, 10, 15, 21]

/-- Groups a byte list into 32-bit words, little-endian. -/
def wordsLE : List Nat → List Nat
  | a :: b :: c :: d :: rest => (a + b * 256 + c * 65536 + d * 16777216) :: wordsLE rest
  | _ => []

/-- MD5 round function for round t. -/
def md5F (t b c d : Nat) : Nat :=
  if t < 16 then Nat.lor (Nat.land b c) (Nat.land (Nat.xor b 0xFFFFFFFF) d)
  else if t < 32 then Nat.lor (Nat.land d b) (Nat.land (Nat.xor d 0xFFFFFFFF) c)
  else if t < 48 then Nat.xor (Nat.xor b c) d
  else Nat.xor c (Nat.lor b (Nat.xor d 0xFFFFFFFF))

/-- MD5 message-word index for round t. -/
def md5G (t : Nat) : Nat :=
  if t < 16 then t
  else if t < 32 then (5 * t + 1) % 16
  else if t < 48 then (3 * t + 5) % 16
  else (7 * t) % 16

/-- Left-rotation of a 32-bit word. -/
def rotl32 (n x : Nat) : Nat :=
  Nat.land (Nat.lor (Nat.shiftLeft x n) (Nat.shiftRight x (32 - n))) 0xFFFFFFFF

/-- MD5 working state. -/
structure MD5State where
  a : Nat
  b : Nat
  c : Nat
  d : Nat

/-- MD5 rounds: fuel counts remaining rounds, t is the current round index. -/
def md5Rounds (ws : List Nat) : Nat → Nat → MD5State → MD5State
  | 0, _, s => s
  | fuel + 1, t, s =>
      let x := (md5F t s.b s.c s.d + s.a + md5K.getD t 0 + ws.getD (md5G t) 0) % 4294967296
      md5Rounds ws fuel (t + 1) ⟨s.d, (s.b + rotl32 (md5S.getD t 0) x) % 4294967296, s.b, s.c⟩

/-- MD5 compression of one 64-byte chunk. -/
def md5Compress (s : MD5State) (chunk : List Nat) : MD5State :=
  let r := md5Rounds (wordsLE chunk) 64 0 s
  ⟨(s.a + r.a) % 4294967296, (s.b + r.b) % 4294967296, (s.c + r.c) % 4294967296, (s.d + r.d) % 4294967296⟩

/-- Unpacks a Nat into a little-endian byte list of length k. -/
def natToBytesLE : Nat → Nat → List Nat
  | 0, _ => []
  | k + 1, n => n % 256 :: natToBytesLE k (n / 256)

/-- Modelled from the spec: the MD5 hash collaborator (spec section 6),
instantiated with RFC 1321 MD5. -/
def md5 (m : List Nat) : List Nat :=
  let padded := m ++ 0x80 :: List.replicate ((64 - ((m.length + 9) % 64)) % 64) 0 ++ natToBytesLE 8 (m.length * 8)
  let r := (chunks64 padded).foldl md5Compress ⟨0x67452301, 0xefcdab89, 0x98badcfe, 0x10325476⟩
  natToBytesLE 4 r.a ++ natToBytesLE 4 r.b ++ natToBytesLE 4 r.c ++ natToBytesLE 4 r.d

/-- Modelled from the spec: the selectable hash identifiers of the hash
provider (spec section 6); the module's documentation and tests use MD5 and
SHA-1. -/
inductive HashType where
  | MD5 : HashType
  | SHA1 : HashType
deriving DecidableEq

/-- Digest size in bytes of a hash type (spec section 6). -/
def mdSize : HashType → Nat
  | HashType.MD5 => 16
  | HashType.SHA1 => 20

/-- The hash function selected by a hash type (the evp_md of the source). -/
def evpMd : HashType → (List Nat → List Nat)
  | HashType.MD5 => md5
  | HashType.SHA1 => sha1

/-- Modelled from the spec: the symmetric cipher identifiers whose metadata
the cipher-metadata provider serves (spec section 6). -/
inductive SymmType where
  | AES_128_ECB : SymmType
  | AES_128_CBC : SymmType
  | AES_256_ECB : SymmType
  | AES_256_CBC : SymmType
  | RC4_128 : SymmType
deriving DecidableEq

/-- Modelled from the spec: the cipher-metadata provider (spec section 6),
giving for each cipher its required key length and IV length in bytes
(the evpc of the source, whose cipher object carries both lengths). -/
def evpc : SymmType → Nat × Nat
  | SymmType.AES_128_ECB => (16, 0)
  | SymmType.AES_128_CBC => (16, 16)
  | SymmType.AES_256_ECB => (32, 0)
  | SymmType.AES_256_CBC => (32, 16)
  | SymmType.RC4_128 => (16, 0)

/-- Iterated application of a hash function (innermost first). -/
def iterHash (h : List Nat → List Nat) : Nat → List Nat → List Nat
  | 0, d => d
  | n + 1, d => iterHash h n (h d)

/-- Modelled from the spec (section 4.1): the chain of digest blocks of the
legacy derivation.  Each block is hash(previous block || secret || salt),
re-hashed count - 1 further times; the fuel argument is the number of blocks
still to produce, prev the previous block's digest (initially empty). -/
def evpChain (h : List Nat → List Nat) (data salt : List Nat) (count : Nat) : Nat → List Nat → List (List Nat)
  | 0, _ => []
  | n + 1, prev =>
      let d := iterHash h (count - 1) (h (prev ++ data ++ salt))
      d :: evpChain h data salt count n d

/-- Modelled from the spec (sections 4.1 and 7): the native EVP_BytesToKey
primitive, whose body is not in the crate sources.  Rejects iteration count 0
(InvalidIterationCount, spec section 4.1 edge cases); otherwise produces
enough blocks to cover key length plus IV length, writes the first keylen
stream bytes as the key and the next ivlen stream bytes as the IV, and
returns the key length as its status value.  A none salt is treated as an
empty salt. -/
def EVP_BytesToKey (typ : SymmType) (md : HashType) (salt : Option (List Nat))
    (data : List Nat) (count : Nat) : Except KdfError (List Nat × List Nat × Nat) :=
  if count = 0 then Except.error KdfError.invalidIterationCount
  else
    let kl := (evpc typ).1
    let il := (evpc typ).2
    let s := match salt with
      | some s => s
      | none => []
    let dl := mdSize md
    let n := (kl + il + dl - 1) / dl
    let stream := (evpChain (evpMd md) data s count n []).flatten
    Except.ok (stream.take kl, (stream.drop kl).take il, kl)

/-- The derived key/IV pair (pkcs5.rs lines 9-14). -/
structure KeyIvPair where
  key : List Nat
  iv : List Nat
deriving DecidableEq

/-- Embedded from pkcs5.rs lines 42-63: after the salt check, the wrapper
reads the cipher's key length from evpc, allocates BOTH the key buffer and
the IV buffer with that key length (lines 46-47), calls EVP_BytesToKey, and
asserts that the returned status equals the key length (line 58; its failure
is a panic, named DerivationFailed per spec section 9, and a primitive error
propagates as the panic of the corresponding condition).  The IV buffer
keeps its zero fill beyond the ivlen bytes the primitive writes. -/
def evpBytesToKeyChecked (typ : SymmType) (mdt : HashType) (data : List Nat)
    (salt : Option (List Nat)) (count : Nat) : Outcome KeyIvPair :=
  let keylen := (evpc typ).1
  match EVP_BytesToKey typ mdt salt data count with
  | Except.error e => Outcome.panic e
  | Except.ok (k, ivw, ret) =>
      if ret = keylen then
        Outcome.ok { key := k, iv := ivw ++ List.replicate (keylen - (evpc typ).2) 0 }
      else Outcome.panic KdfError.derivationFailed

/-- Embedded from pkcs5.rs lines 26-65: the legacy derivation entry point.
First mirrors the salt check (lines 32-38): a present salt must have exactly
PKCS5_SALT_LEN = 8 bytes, enforced by assert_eq! - modelled as a panic named
InvalidSaltLength per spec section 7; an absent salt passes a null pointer.
Then runs the checked derivation. -/
def evp_bytes_to_key_pbkdf1_compatible (typ : SymmType) (message_digest_type : HashType)
    (data : List Nat) (salt : Option (List Nat)) (count : Nat) : Outcome KeyIvPair :=
  match salt with
  | some s =>
      if s.length = 8 then evpBytesToKeyChecked typ message_digest_type data (some s) count
      else Outcome.panic KdfError.invalidSaltLength
  | none => evpBytesToKeyChecked typ message_digest_type data none count

/-- Validity of the optional salt argument: a present salt must be 8 bytes. -/
def saltOk : Option (List Nat) → Bool
  | some s => s.length == 8
  | none => true

/-- The derivation byte stream of the legacy algorithm: the concatenation of
the hash-chained blocks, enough of them to cover key length plus IV length. -/
def evpStream (typ : SymmType) (md : HashType) (data s : List Nat) (count : Nat) : List Nat :=
  (evpChain (evpMd md) data s count (((evpc typ).1 + (evpc typ).2 + mdSize md - 1) / mdSize md) []).flatten

/-- Discriminates successful outcomes. -/
def Outcome.isOk {α : Type} : Outcome α → Bool
  | Outcome.ok _ => true
  | _ => false

/-- The IV field of a successful legacy derivation (empty otherwise). -/
def ivBytesOf : Outcome KeyIvPair → List Nat
  | Outcome.ok p => p.iv
  | _ => []

/-! Claim-side reference formulation of PBKDF2 (the standard definition as
worded in the specification and the claim), and its equivalence with the
modelled primitive. -/

/-- Iterated application of a pseudo-random function, innermost first. -/
def prfPow (prf : List Nat → List Nat) : Nat → List Nat → List Nat
  | 0, u => u
  | k + 1, u => prfPow prf k (prf u)

/-- Reference U chain: pbkdf2RefU pass salt i j is U_(j+1) of block i, with
U_1 = HMAC-SHA1(pass, salt || be32 i) and U_(j+1) = HMAC-SHA1(pass, U_j). -/
def pbkdf2RefU (pass salt : List Nat) (i : Nat) : Nat → List Nat
  | 0 => hmacSha1 pass (salt ++ be32 i)
  | j + 1 => hmacSha1 pass (pbkdf2RefU pass salt i j)

/-- Reference block: T_i = U_1 XOR U_2 XOR ... XOR U_iter. -/
def pbkdf2RefT (pass salt : List Nat) (iter i : Nat) : List Nat :=
  ((List.range (iter - 1)).map (fun j => pbkdf2RefU pass salt i (j + 1))).foldl
    xorBytes (pbkdf2RefU pass salt i 0)

/-- Reference PBKDF2-HMAC-SHA1: with hLen = 20 and
blockCount = ceil(dkLen / 20), the concatenation T_1 || ... || T_blockCount
truncated to dkLen bytes. -/
def pbkdf2Ref (pass salt : List Nat) (iter dkLen : Nat) : List Nat :=
  List.take dkLen (((List.range ((dkLen + 19) / 20)).map
    (fun i => pbkdf2RefT pass salt iter (i + 1))).flatten)

/-! Claim-side reference formulation of the legacy hash-chaining algorithm
(C5), and its equivalence with the modelled EVP_BytesToKey. -/

/-- Iterated application of a hash, outermost last: hashPow h n x applies h
to x n times. -/
def hashPow (h : List Nat → List Nat) : Nat → List Nat → List Nat
  | 0, x => x
  | n + 1, x => h (hashPow h n x)

/-- Reference digest chain: D_0 is empty and
D_(i+1) = hash applied count times to (D_i || secret || salt). -/
def legacyD (h : List Nat → List Nat) (secret salt : List Nat) (count : Nat) : Nat → List Nat
  | 0 => []
  | i + 1 => hashPow h count (legacyD h secret salt count i ++ secret ++ salt)

/-- Reference stream: D_1 || D_2 || ... || D_m. -/
def legacyRefStream (h : List Nat → List Nat) (secret salt : List Nat) (count m : Nat) : List Nat :=
  ((List.range m).map (fun i => legacyD h secret salt count (i + 1))).flatten

/-- Number of blocks needed to reach key length plus IV length. -/
def legacyBlockCount (typ : SymmType) (mdt : HashType) : Nat :=
  ((evpc typ).1 + (evpc typ).2 + mdSize mdt - 1) / mdSize mdt

/-- Reference key: the first key-length bytes of the reference stream. -/
def legacyRefKey (typ : SymmType) (mdt : HashType) (secret salt : List Nat) (count : Nat) : List Nat :=
  (legacyRefStream (evpMd mdt) secret salt count (legacyBlockCount typ mdt)).take (evpc typ).1

/-- Reference IV: the next iv-length bytes of the reference stream. -/
def legacyRefIv (typ : SymmType) (mdt : HashType) (secret salt : List Nat) (count : Nat) : List Nat :=
  ((legacyRefStream (evpMd mdt) secret salt count (legacyBlockCount typ mdt)).drop (evpc typ).1).take (evpc typ).2

/-! Packed evaluation path for the PBKDF2 inner loop.  During the inner loop
every U value is a 20-byte string; representing it as a 160-bit Nat lets a
concrete evaluation run entirely on machine-backed Nat arithmetic.  The
packed loop is related to the byte-list loop by the packing lemmas below. -/

/-- The constant 2^352, the factor that positions a 20-byte message at the
front of a 64-byte SHA-1 block. -/
def P352 : Nat := 9173994463960286046443283581208347763186259956673124494950355357547691504353939232280074212440502746218496

/-- The packed tail of the one-block SHA-1 padding of a 20-byte message
hashed after one 64-byte prefix block: the byte 0x80, 35 zero bytes, and the
8-byte big-endian encoding of the bit length 672. -/
def TAILC : Nat := 4586997231980143023221641790604173881593129978336562247475177678773845752176969616140037106220251373109920

/-- HMAC-SHA1 of a 20-byte packed message given the two packed pad states:
both the inner and the outer hash process exactly one further block. -/
def hmacPacked (ist ost u : Nat) : Nat :=
  sha1Comp ost (sha1Comp ist (u * P352 + TAILC) * P352 + TAILC)

/-- Forces a Nat to a literal before continuing (identity, proved below). -/
def forceN (n : Nat) (k : Nat → Nat × Nat) : Nat × Nat :=
  match n with
  | 0 => k 0
  | m + 1 => k (m + 1)

/-- The packed PBKDF2 inner loop: n further iterations from previous value u
and accumulator acc, both 160-bit packed. -/
def innerP (ist ost : Nat) (n : Nat) (u acc : Nat) : Nat × Nat :=
  @Nat.rec (fun _ => Nat → Nat → Nat × Nat)
    (fun u acc => (u, acc))
    (fun _ ih u acc =>
      forceN (hmacPacked ist ost u) fun u2 =>
        forceN (Nat.xor acc u2) fun acc2 => ih u2 acc2)
    n u acc

/-- The byte string of the word password of the PBKDF2 test vectors. -/
def passwordBytes : List Nat := [0x70, 0x61, 0x73, 0x73, 0x77, 0x6F, 0x72, 0x64]

/-- The byte string of the word salt of the PBKDF2 test vectors. -/
def saltVecBytes : List Nat := [0x73, 0x61, 0x6C, 0x74]

/-- The password pass-NUL-word of the last PBKDF2 test vector. -/
def passNulBytes : List Nat := [0x70, 0x61, 0x73, 0x73, 0x00, 0x77, 0x6F, 0x72, 0x64]

/-- The salt sa-NUL-lt of the last PBKDF2 test vector. -/
def saltNulBytes : List Nat := [0x73, 0x61, 0x00, 0x6C, 0x74]

/-! Basic length facts about the modelled primitives. -/

theorem natToBytesBE_length : ∀ k n, (natToBytesBE k n).length = k := by
  intro k
  induction k with
  | zero => intro n; rfl
  | succ k ih => intro n; simp [natToBytesBE, ih]

theorem natToBytesLE_length : ∀ k n, (natToBytesLE k n).length = k := by
  intro k
  induction k with
  | zero => intro n; rfl
  | succ k ih => intro n; simp [natToBytesLE, ih]

theorem sha1_length (m : List Nat) : (sha1 m).length = 20 := by
  simp [sha1, natToBytesBE_length]

theorem md5_length (m : List Nat) : (md5 m).length = 16 := by
  simp [md5, natToBytesLE_length]

theorem evpMd_length (t : HashType) (m : List Nat) : (evpMd t m).length = mdSize t := by
  cases t <;> simp [evpMd, mdSize, sha1_length, md5_length]

theorem mdSize_pos (t : HashType) : 0 < mdSize t := by
  cases t <;> simp [mdSize]

theorem hmacStates_length (ist ost : Nat) (msg : List Nat) :
    (hmacStates ist ost msg).length = 20 := by
  simp [hmacStates, natToBytesBE_length]

theorem hmacSha1_length (key msg : List Nat) : (hmacSha1 key msg).length = 20 := by
  simp [hmacSha1, hmacStates_length]

theorem xorBytes_length (a b : List Nat) : (xorBytes a b).length = min a.length b.length := by
  simp [xorBytes]

/-- The inner PBKDF2 loop preserves the accumulator length when the PRF always
returns 20 bytes. -/
theorem pbkdf2InnerF_length (prf : List Nat → List Nat) (hprf : ∀ x, (prf x).length = 20) :
    ∀ n u acc, acc.length = 20 → (pbkdf2InnerF prf n u acc).length = 20 := by
  intro n
  induction n with
  | zero => intro u acc h; simpa [pbkdf2InnerF] using h
  | succ n ih =>
      intro u acc h
      simp only [pbkdf2InnerF]
      exact ih _ _ (by simp [xorBytes_length, h, hprf])

theorem pbkdf2T_length (pass salt : List Nat) (iter i : Nat) :
    (pbkdf2T pass salt iter i).length = 20 := by
  simp only [pbkdf2T]
  exact pbkdf2InnerF_length _ (fun x => hmacSha1_length pass x) _ _ _ (hmacSha1_length _ _)

theorem pbkdf2Blocks_length (pass salt : List Nat) (iter : Nat) :
    ∀ n i, (pbkdf2Blocks pass salt iter n i).length = 20 * n := by
  intro n
  induction n with
  | zero => intro i; rfl
  | succ n ih =>
      intro i
      simp [pbkdf2Blocks, pbkdf2T_length, ih, Nat.mul_succ]
      omega

/-- Ceiling-division bound: d blocks of size dl cover a when d = ceil(a / dl). -/
theorem ceil_mul_ge (a dl : Nat) (h : 0 < dl) : a ≤ ((a + dl - 1) / dl) * dl := by
  rcases Nat.eq_zero_or_pos a with ha | ha
  · simp [ha]
  have h1 := Nat.div_add_mod (a + dl - 1) dl
  have h2 := Nat.mod_lt (a + dl - 1) h
  have h3 : ((a + dl - 1) / dl) * dl = dl * ((a + dl - 1) / dl) := Nat.mul_comm _ _
  omega

/-- On valid parameters, the PBKDF2 wrapper returns the primitive's output. -/
theorem pbkdf2_ok (pass salt : List Nat) (iter keylen : Nat)
    (hi : 1 ≤ iter) (hk : 1 ≤ keylen) :
    pbkdf2_hmac_sha1 pass salt iter keylen =
      Outcome.ok (List.take keylen (pbkdf2Blocks pass salt iter ((keylen + 19) / 20) 1)) := by
  simp [pbkdf2_hmac_sha1, pbkdf2_hmac_sha1_with, PKCS5_PBKDF2_HMAC_SHA1, hi, hk]

/-- The primitive's output has exactly the requested length. -/
theorem pbkdf2_prim_length (pass salt : List Nat) (iter keylen : Nat) :
    (List.take keylen (pbkdf2Blocks pass salt iter ((keylen + 19) / 20) 1)).length = keylen := by
  have hlen := pbkdf2Blocks_length pass salt iter ((keylen + 19) / 20) 1
  have hge : keylen ≤ 20 * ((keylen + 19) / 20) := by
    have := ceil_mul_ge keylen 20 (by omega)
    omega
  simp [List.length_take]
  omega

/-! Shape and length facts about the legacy derivation. -/

theorem iterHash_length (h : List Nat → List Nat) (dl : Nat) (hl : ∀ x, (h x).length = dl) :
    ∀ n d, d.length = dl → (iterHash h n d).length = dl := by
  intro n
  induction n with
  | zero => intro d hd; simpa [iterHash] using hd
  | succ n ih => intro d hd; exact ih _ (hl d)

theorem evpChain_flatten_length (h : List Nat → List Nat) (dl : Nat)
    (hl : ∀ x, (h x).length = dl) (data salt : List Nat) (count : Nat) :
    ∀ n prev, ((evpChain h data salt count n prev).flatten).length = n * dl := by
  intro n
  induction n with
  | zero => intro prev; simp [evpChain]
  | succ n ih =>
      intro prev
      simp only [evpChain, List.flatten_cons, List.length_append, ih]
      rw [iterHash_length h dl hl _ _ (hl _), Nat.succ_mul, Nat.add_comm]

theorem EVP_BytesToKey_eq (typ : SymmType) (md : HashType) (salt : Option (List Nat))
    (data : List Nat) (count : Nat) (hc : count ≠ 0) :
    EVP_BytesToKey typ md salt data count =
      Except.ok ((evpStream typ md data (salt.getD []) count).take (evpc typ).1,
        ((evpStream typ md data (salt.getD []) count).drop (evpc typ).1).take (evpc typ).2,
        (evpc typ).1) := by
  cases salt <;> simp [EVP_BytesToKey, evpStream, hc]

theorem evpStream_length (typ : SymmType) (md : HashType) (data s : List Nat) (count : Nat) :
    (evpStream typ md data s count).length =
      (((evpc typ).1 + (evpc typ).2 + mdSize md - 1) / mdSize md) * mdSize md := by
  simp [evpStream, evpChain_flatten_length (evpMd md) (mdSize md) (evpMd_length md) data s count]

theorem evpStream_length_ge (typ : SymmType) (md : HashType) (data s : List Nat) (count : Nat) :
    (evpc typ).1 + (evpc typ).2 ≤ (evpStream typ md data s count).length := by
  rw [evpStream_length]
  exact ceil_mul_ge _ _ (mdSize_pos md)

theorem evpc_iv_le_key (typ : SymmType) : (evpc typ).2 ≤ (evpc typ).1 := by
  cases typ <;> simp [evpc]

/-- On valid parameters the legacy wrapper succeeds, with the key taken from
the front of the stream and the IV buffer holding the next ivlen stream bytes
padded with zeros up to the key length. -/
theorem evp_ok (typ : SymmType) (mdt : HashType) (data : List Nat)
    (salt : Option (List Nat)) (count : Nat) (hs : saltOk salt = true) (hc : count ≠ 0) :
    evp_bytes_to_key_pbkdf1_compatible typ mdt data salt count =
      Outcome.ok { key := (evpStream typ mdt data (salt.getD []) count).take (evpc typ).1,
                   iv := ((evpStream typ mdt data (salt.getD []) count).drop (evpc typ).1).take (evpc typ).2
                         ++ List.replicate ((evpc typ).1 - (evpc typ).2) 0 } := by
  cases salt with
  | none =>
      simp [evp_bytes_to_key_pbkdf1_compatible, evpBytesToKeyChecked,
        EVP_BytesToKey_eq _ _ _ _ _ hc]
  | some s =>
      have h8 : s.length = 8 := by simpa [saltOk] using hs
      simp [evp_bytes_to_key_pbkdf1_compatible, h8, evpBytesToKeyChecked,
        EVP_BytesToKey_eq _ _ _ _ _ hc]

theorem evp_key_length (typ : SymmType) (mdt : HashType) (data s : List Nat) (count : Nat) :
    ((evpStream typ mdt data s count).take (evpc typ).1).length = (evpc typ).1 := by
  have := evpStream_length_ge typ mdt data s count
  simp [List.length_take]
  omega

theorem evp_ivw_length (typ : SymmType) (mdt : HashType) (data s : List Nat) (count : Nat) :
    (((evpStream typ mdt data s count).drop (evpc typ).1).take (evpc typ).2).length = (evpc typ).2 := by
  have := evpStream_length_ge typ mdt data s count
  simp [List.length_take, List.length_drop]
  omega

/-- Inversion: the legacy wrapper returns ok only through the checked path,
and then the pair has the stream shape. -/
theorem evp_ok_inv (typ : SymmType) (mdt : HashType) (data : List Nat)
    (salt : Option (List Nat)) (count : Nat) (p : KeyIvPair)
    (h : evp_bytes_to_key_pbkdf1_compatible typ mdt data salt count = Outcome.ok p) :
    p.key = (evpStream typ mdt data (salt.getD []) count).take (evpc typ).1 ∧
    p.iv = ((evpStream typ mdt data (salt.getD []) count).drop (evpc typ).1).take (evpc typ).2
           ++ List.replicate ((evpc typ).1 - (evpc typ).2) 0 := by
  rcases salt with _ | s
  · rcases Nat.eq_zero_or_pos count with hc | hc
    · rw [hc] at h
      simp [evp_bytes_to_key_pbkdf1_compatible, evpBytesToKeyChecked, EVP_BytesToKey] at h
    · rw [evp_ok typ mdt data none count rfl (by omega)] at h
      injection h with h2
      rw [← h2]
      exact ⟨rfl, rfl⟩
  · by_cases h8 : s.length = 8
    · rcases Nat.eq_zero_or_pos count with hc | hc
      · rw [hc] at h
        simp [evp_bytes_to_key_pbkdf1_compatible, h8, evpBytesToKeyChecked, EVP_BytesToKey] at h
      · rw [evp_ok typ mdt data (some s) count (by simp [saltOk, h8]) (by omega)] at h
        injection h with h2
        rw [← h2]
        exact ⟨rfl, rfl⟩
    · simp [evp_bytes_to_key_pbkdf1_compatible, h8] at h

/-- C1, counterexample: the claim says the iv field has exactly the cipher's
required IV length; for AES-256-CBC (key length 32, IV length 16) a
successful derivation returns an iv field of length 32, not 16. -/
theorem c1_counterexample :
    Outcome.isOk (evp_bytes_to_key_pbkdf1_compatible SymmType.AES_256_CBC HashType.SHA1 [1, 2, 3] none 1) = true ∧
    (ivBytesOf (evp_bytes_to_key_pbkdf1_compatible SymmType.AES_256_CBC HashType.SHA1 [1, 2, 3] none 1)).length
      ≠ (evpc SymmType.AES_256_CBC).2 := by
  decide

/-- C1 (amended): on every successful legacy derivation, the key has exactly
the target cipher's key length, and the iv buffer also has the cipher's KEY
length (both buffers are allocated with the key length, pkcs5.rs lines
46-47); the iv length equals the cipher's IV length only when the two
coincide. -/
theorem c1_buffer_lengths (typ : SymmType) (mdt : HashType) (data : List Nat)
    (salt : Option (List Nat)) (count : Nat) (p : KeyIvPair)
    (h : evp_bytes_to_key_pbkdf1_compatible typ mdt data salt count = Outcome.ok p) :
    p.key.length = (evpc typ).1 ∧ p.iv.length = (evpc typ).1 := by
  obtain ⟨hk, hiv⟩ := evp_ok_inv typ mdt data salt count p h
  constructor
  · rw [hk, evp_key_length]
  · rw [hiv, List.length_append, evp_ivw_length, List.length_replicate]
    have := evpc_iv_le_key typ
    omega

/-- C1 witness: a concrete successful derivation (AES-128-ECB, MD5, empty
secret, no salt, one iteration) with both buffer lengths equal to 16. -/
theorem c1_buffer_lengths_witness :
    ({ key := [212, 29, 140, 217, 143, 0, 178, 4, 233, 128, 9, 152, 236, 248, 66, 126],
       iv := List.replicate 16 0 } : KeyIvPair).key.length = (evpc SymmType.AES_128_ECB).1 ∧
    ({ key := [212, 29, 140, 217, 143, 0, 178, 4, 233, 128, 9, 152, 236, 248, 66, 126],
       iv := List.replicate 16 0 } : KeyIvPair).iv.length = (evpc SymmType.AES_128_ECB).1 :=
  c1_buffer_lengths SymmType.AES_128_ECB HashType.MD5 [] none 1 _ (by decide)

/-- C3: for all inputs passing the precondition checks, pbkdf2_hmac_sha1
succeeds and returns exactly the requested number of bytes. -/
theorem c3_output_length_exact (pass salt : List Nat) (iter keylen : Nat)
    (hi : 1 ≤ iter) (hk : 1 ≤ keylen) :
    ∃ out, pbkdf2_hmac_sha1 pass salt iter keylen = Outcome.ok out ∧ out.length = keylen :=
  ⟨_, pbkdf2_ok pass salt iter keylen hi hk, pbkdf2_prim_length pass salt iter keylen⟩

/-- C3 witness: concrete instance with one iteration and one output byte. -/
theorem c3_output_length_exact_witness :
    (1 ≤ 1) ∧ ∃ out, pbkdf2_hmac_sha1 [] [] 1 1 = Outcome.ok out ∧ out.length = 1 :=
  ⟨by decide, c3_output_length_exact [] [] 1 1 (by decide) (by decide)⟩

/-- C6: a present salt whose length is not 8 makes the legacy derivation fail
with the InvalidSaltLength condition (the assert_eq! of pkcs5.rs line 34),
while an absent salt succeeds for any positive iteration count. -/
theorem c6_salt_length_enforcement :
    (∀ (typ : SymmType) (mdt : HashType) (data l : List Nat) (count : Nat), l.length ≠ 8 →
        evp_bytes_to_key_pbkdf1_compatible typ mdt data (some l) count
          = Outcome.panic KdfError.invalidSaltLength)
    ∧ (∀ (typ : SymmType) (mdt : HashType) (data : List Nat) (count : Nat), 1 ≤ count →
        Outcome.isOk (evp_bytes_to_key_pbkdf1_compatible typ mdt data none count) = true) := by
  constructor
  · intro typ mdt data l count hne
    simp [evp_bytes_to_key_pbkdf1_compatible, hne]
  · intro typ mdt data count hc
    rw [evp_ok typ mdt data none count rfl (by omega)]
    rfl

/-- C6 witness: a 7-byte salt fails with InvalidSaltLength; no salt succeeds. -/
theorem c6_salt_length_enforcement_witness :
    evp_bytes_to_key_pbkdf1_compatible SymmType.AES_128_CBC HashType.SHA1 [] (some (List.replicate 7 1)) 1
      = Outcome.panic KdfError.invalidSaltLength ∧
    Outcome.isOk (evp_bytes_to_key_pbkdf1_compatible SymmType.AES_128_CBC HashType.SHA1 [] none 1) = true :=
  ⟨c6_salt_length_enforcement.1 SymmType.AES_128_CBC HashType.SHA1 [] (List.replicate 7 1) 1 (by decide),
   c6_salt_length_enforcement.2 SymmType.AES_128_CBC HashType.SHA1 [] 1 (by decide)⟩

/-- C7, counterexample: the claim says pbkdf2_hmac_sha1 rejects iteration
count 0 with InvalidIterationCount; the source's assert!(iter >= 1) is the
precondition check of spec section 4.2, whose violation is named
InvalidParameter, not InvalidIterationCount. -/
theorem c7_counterexample :
    pbkdf2_hmac_sha1 [0x61] [] 0 20 ≠ Outcome.panic KdfError.invalidIterationCount ∧
    pbkdf2_hmac_sha1 [0x61] [] 0 20 = Outcome.panic KdfError.invalidParameter := by
  decide

/-- C7 (amended): iteration count 0 is rejected by both derivations with no
key material produced: the legacy derivation fails with the
InvalidIterationCount condition, while pbkdf2_hmac_sha1 fails with the
InvalidParameter condition (for every injected primitive - no derivation
work is reached). -/
theorem c7_iteration_zero_rejected :
    (∀ (typ : SymmType) (mdt : HashType) (data : List Nat) (salt : Option (List Nat)),
        saltOk salt = true →
        evp_bytes_to_key_pbkdf1_compatible typ mdt data salt 0
          = Outcome.panic KdfError.invalidIterationCount)
    ∧ (∀ (prim : List Nat → List Nat → Nat → Nat → Option (List Nat)) (pass salt : List Nat) (keylen : Nat),
        pbkdf2_hmac_sha1_with prim pass salt 0 keylen = Outcome.panic KdfError.invalidParameter) := by
  constructor
  · intro typ mdt data salt hs
    rcases salt with _ | s
    · simp [evp_bytes_to_key_pbkdf1_compatible, evpBytesToKeyChecked, EVP_BytesToKey]
    · have h8 : s.length = 8 := by simpa [saltOk] using hs
      simp [evp_bytes_to_key_pbkdf1_compatible, h8, evpBytesToKeyChecked, EVP_BytesToKey]
  · intro prim pass salt keylen
    simp [pbkdf2_hmac_sha1_with]

/-- C7 witness: both rejections at concrete inputs. -/
theorem c7_iteration_zero_rejected_witness :
    evp_bytes_to_key_pbkdf1_compatible SymmType.AES_128_CBC HashType.SHA1 [] none 0
      = Outcome.panic KdfError.invalidIterationCount ∧
    pbkdf2_hmac_sha1_with PKCS5_PBKDF2_HMAC_SHA1 [] [] 0 20 = Outcome.panic KdfError.invalidParameter :=
  ⟨c7_iteration_zero_rejected.1 SymmType.AES_128_CBC HashType.SHA1 [] none (by decide),
   c7_iteration_zero_rejected.2 PKCS5_PBKDF2_HMAC_SHA1 [] [] 20⟩

/-- C8: pbkdf2_hmac_sha1 rejects iteration count 0 and output length 0 with
the InvalidParameter condition before consulting the primitive (the result is
the same for every injected primitive), while zero-length password and salt
are accepted and produce exactly the requested output. -/
theorem c8_pbkdf2_param_validation :
    (∀ (prim : List Nat → List Nat → Nat → Nat → Option (List Nat)) (pass salt : List Nat) (keylen : Nat),
        pbkdf2_hmac_sha1_with prim pass salt 0 keylen = Outcome.panic KdfError.invalidParameter)
    ∧ (∀ (prim : List Nat → List Nat → Nat → Nat → Option (List Nat)) (pass salt : List Nat) (iter : Nat),
        pbkdf2_hmac_sha1_with prim pass salt iter 0 = Outcome.panic KdfError.invalidParameter)
    ∧ (∀ iter keylen, 1 ≤ iter → 1 ≤ keylen →
        ∃ out, pbkdf2_hmac_sha1 [] [] iter keylen = Outcome.ok out ∧ out.length = keylen) := by
  refine ⟨?_, ?_, ?_⟩
  · intro prim pass salt keylen
    simp [pbkdf2_hmac_sha1_with]
  · intro prim pass salt iter
    by_cases hi : 1 ≤ iter <;> simp [pbkdf2_hmac_sha1_with, hi]
  · intro iter keylen hi hk
    exact ⟨_, pbkdf2_ok [] [] iter keylen hi hk, pbkdf2_prim_length [] [] iter keylen⟩

/-- C8 witness: the three parts at concrete inputs. -/
theorem c8_pbkdf2_param_validation_witness :
    pbkdf2_hmac_sha1_with PKCS5_PBKDF2_HMAC_SHA1 [1] [2] 0 20 = Outcome.panic KdfError.invalidParameter ∧
    pbkdf2_hmac_sha1_with PKCS5_PBKDF2_HMAC_SHA1 [1] [2] 3 0 = Outcome.panic KdfError.invalidParameter ∧
    ∃ out, pbkdf2_hmac_sha1 [] [] 1 1 = Outcome.ok out ∧ out.length = 1 :=
  ⟨c8_pbkdf2_param_validation.1 PKCS5_PBKDF2_HMAC_SHA1 [1] [2] 20,
   c8_pbkdf2_param_validation.2.1 PKCS5_PBKDF2_HMAC_SHA1 [1] [2] 3,
   c8_pbkdf2_param_validation.2.2 1 1 (by decide) (by decide)⟩

/-- C9, counterexample: the claim says a failing primitive yields a
recoverable DerivationFailed error; the source instead executes panic!()
(pkcs5.rs line 83), modelled as the panic outcome - the call never returns a
recoverable err value. -/
theorem c9_counterexample :
    pbkdf2_hmac_sha1_with (fun _ _ _ _ => none) [0x61] [0x62] 1 20
      = Outcome.panic KdfError.derivationFailed ∧
    pbkdf2_hmac_sha1_with (fun _ _ _ _ => none) [0x61] [0x62] 1 20
      ≠ Outcome.err KdfError.derivationFailed := by
  decide

/-- C9 (amended): when the injected primitive reports failure on parameters
that pass the precondition checks, the wrapper panics with the
DerivationFailed condition and produces no output bytes; it does not return
a recoverable error value. -/
theorem c9_primitive_failure_panics
    (prim : List Nat → List Nat → Nat → Nat → Option (List Nat))
    (pass salt : List Nat) (iter keylen : Nat) (hi : 1 ≤ iter) (hk : 1 ≤ keylen)
    (hfail : prim pass salt iter keylen = none) :
    pbkdf2_hmac_sha1_with prim pass salt iter keylen = Outcome.panic KdfError.derivationFailed := by
  simp [pbkdf2_hmac_sha1_with, hi, hk, hfail]

/-- C9 witness: a concrete always-failing primitive. -/
theorem c9_primitive_failure_panics_witness :
    pbkdf2_hmac_sha1_with (fun _ _ _ _ => none) [] [] 1 1 = Outcome.panic KdfError.derivationFailed :=
  c9_primitive_failure_panics (fun _ _ _ _ => none) [] [] 1 1 (by decide) (by decide) rfl

/-- C10: every successful legacy derivation returns an iv of the same length
as the key, namely the cipher's key length (both buffers are allocated to
the key length), with the bytes beyond the cipher's IV length all zero. -/
theorem c10_iv_padded_to_key_length (typ : SymmType) (mdt : HashType) (data : List Nat)
    (salt : Option (List Nat)) (count : Nat) (p : KeyIvPair)
    (h : evp_bytes_to_key_pbkdf1_compatible typ mdt data salt count = Outcome.ok p) :
    p.iv.length = p.key.length ∧ p.key.length = (evpc typ).1 ∧
    List.drop (evpc typ).2 p.iv = List.replicate ((evpc typ).1 - (evpc typ).2) 0 := by
  obtain ⟨hk, hiv⟩ := evp_ok_inv typ mdt data salt count p h
  have hkl : p.key.length = (evpc typ).1 := by rw [hk, evp_key_length]
  have hivl : p.iv.length = (evpc typ).1 := by
    rw [hiv, List.length_append, evp_ivw_length, List.length_replicate]
    have := evpc_iv_le_key typ
    omega
  refine ⟨by rw [hkl, hivl], hkl, ?_⟩
  have hlen := evp_ivw_length typ mdt data (salt.getD []) count
  rw [hiv]
  nth_rewrite 1 [← hlen]
  rw [List.drop_left]

theorem prfPow_succ_out (prf : List Nat → List Nat) :
    ∀ k u, prfPow prf (k + 1) u = prf (prfPow prf k u) := by
  intro k
  induction k with
  | zero => intro u; rfl
  | succ k ih => intro u; exact ih (prf u)

/-- The operational inner loop computes the XOR fold of the iterated PRF. -/
theorem pbkdf2InnerF_eq_fold (prf : List Nat → List Nat) :
    ∀ n u acc, pbkdf2InnerF prf n u acc =
      ((List.range n).map (fun j => prfPow prf (j + 1) u)).foldl xorBytes acc := by
  intro n
  induction n with
  | zero => intro u acc; simp [pbkdf2InnerF]
  | succ n ih =>
      intro u acc
      simp only [pbkdf2InnerF]
      rw [ih]
      rw [List.range_succ_eq_map]
      simp [List.map_map, Function.comp]
      rfl

theorem pbkdf2RefU_eq (pass salt : List Nat) (i : Nat) :
    ∀ j, pbkdf2RefU pass salt i j = prfPow (hmacSha1 pass) j (hmacSha1 pass (salt ++ be32 i)) := by
  intro j
  induction j with
  | zero => rfl
  | succ j ih => rw [pbkdf2RefU, ih, prfPow_succ_out]

theorem pbkdf2T_eq_ref (pass salt : List Nat) (iter i : Nat) :
    pbkdf2T pass salt iter i = pbkdf2RefT pass salt iter i := by
  simp only [pbkdf2T, pbkdf2RefT, pbkdf2RefU_eq]
  rw [pbkdf2InnerF_eq_fold]
  rfl

theorem pbkdf2Blocks_eq_ref (pass salt : List Nat) (iter : Nat) :
    ∀ n i, pbkdf2Blocks pass salt iter n i =
      ((List.range n).map (fun j => pbkdf2RefT pass salt iter (i + j))).flatten := by
  intro n
  induction n with
  | zero => intro i; simp [pbkdf2Blocks]
  | succ n ih =>
      intro i
      have hstep : pbkdf2Blocks pass salt iter (n + 1) i
          = pbkdf2T pass salt iter i ++ pbkdf2Blocks pass salt iter n (i + 1) := rfl
      have hfun : ((fun j => pbkdf2RefT pass salt iter (i + j)) ∘ Nat.succ)
          = (fun j => pbkdf2RefT pass salt iter (i + 1 + j)) := by
        funext j
        simp only [Function.comp]
        congr 1
        omega
      rw [hstep, ih, pbkdf2T_eq_ref, List.range_succ_eq_map, List.map_cons,
        List.flatten_cons, List.map_map, hfun]
      simp

/-- C4: on all inputs passing the precondition checks, pbkdf2_hmac_sha1
returns exactly the standard PBKDF2-HMAC-SHA1 of its inputs: with hLen = 20
and blockCount = ceil(keylen / 20), each block T_i is the XOR of the chain
U_1 = HMAC-SHA1(pass, salt || be32 i), U_j = HMAC-SHA1(pass, U_(j-1)), and
the output is T_1 || ... || T_blockCount truncated to keylen bytes. -/
theorem c4_pbkdf2_matches_reference (pass salt : List Nat) (iter keylen : Nat)
    (hi : 1 ≤ iter) (hk : 1 ≤ keylen) :
    pbkdf2_hmac_sha1 pass salt iter keylen = Outcome.ok (pbkdf2Ref pass salt iter keylen) := by
  rw [pbkdf2_ok pass salt iter keylen hi hk]
  have hfun : (fun j => pbkdf2RefT pass salt iter (1 + j))
      = (fun i => pbkdf2RefT pass salt iter (i + 1)) := by
    funext j
    congr 1
    omega
  rw [pbkdf2Blocks_eq_ref, hfun]
  rfl

/-- C4 witness: concrete instance at one iteration, one output byte. -/
theorem c4_pbkdf2_matches_reference_witness :
    (1 ≤ 1) ∧ pbkdf2_hmac_sha1 [] [] 1 1 = Outcome.ok (pbkdf2Ref [] [] 1 1) :=
  ⟨by decide, c4_pbkdf2_matches_reference [] [] 1 1 (by decide) (by decide)⟩

/-- C10 witness: the crate's own regression test (pkcs5.rs lines 186-227):
AES-256-CBC with SHA-1, the fixed 32-byte secret and 8-byte salt, one
iteration; the key has 32 bytes, the iv buffer has 32 bytes of which the
last 16 are zero. -/
theorem c10_iv_padded_to_key_length_witness :
    ({ key := [249, 115, 114, 97, 32, 213, 165, 146, 58, 87, 234, 3, 43, 250, 97, 114,
               26, 98, 245, 246, 238, 177, 229, 161, 183, 224, 174, 3, 6, 244, 236, 255],
       iv := [4, 223, 153, 219, 28, 142, 234, 68, 227, 69, 98, 107, 208, 14, 236, 60,
              0, 0, 0, 0, 0, 0, 0, 0, 0, 0, 0, 0, 0, 0, 0, 0] } : KeyIvPair).iv.length
      = ({ key := [249, 115, 114, 97, 32, 213, 165, 146, 58, 87, 234, 3, 43, 250, 97, 114,
                   26, 98, 245, 246, 238, 177, 229, 161, 183, 224, 174, 3, 6, 244, 236, 255],
           iv := [4, 223, 153, 219, 28, 142, 234, 68, 227, 69, 98, 107, 208, 14, 236, 60,
                  0, 0, 0, 0, 0, 0, 0, 0, 0, 0, 0, 0, 0, 0, 0, 0] } : KeyIvPair).key.length
    ∧ ({ key := [249, 115, 114, 97, 32, 213, 165, 146, 58, 87, 234, 3, 43, 250, 97, 114,
                 26, 98, 245, 246, 238, 177, 229, 161, 183, 224, 174, 3, 6, 244, 236, 255],
         iv := [4, 223, 153, 219, 28, 142, 234, 68, 227, 69, 98, 107, 208, 14, 236, 60,
                0, 0, 0, 0, 0, 0, 0, 0, 0, 0, 0, 0, 0, 0, 0, 0] } : KeyIvPair).key.length
        = (evpc SymmType.AES_256_CBC).1
    ∧ List.drop (evpc SymmType.AES_256_CBC).2
        ({ key := [249, 115, 114, 97, 32, 213, 165, 146, 58, 87, 234, 3, 43, 250, 97, 114,
                   26, 98, 245, 246, 238, 177, 229, 161, 183, 224, 174, 3, 6, 244, 236, 255],
           iv := [4, 223, 153, 219, 28, 142, 234, 68, 227, 69, 98, 107, 208, 14, 236, 60,
                  0, 0, 0, 0, 0, 0, 0, 0, 0, 0, 0, 0, 0, 0, 0, 0] } : KeyIvPair).iv
        = List.replicate ((evpc SymmType.AES_256_CBC).1 - (evpc SymmType.AES_256_CBC).2) 0 :=
  c10_iv_padded_to_key_length SymmType.AES_256_CBC HashType.SHA1
    [143, 210, 75, 63, 214, 179, 155, 241, 242, 31, 154, 56, 198, 145, 192, 64,
     2, 245, 167, 220, 55, 119, 233, 136, 139, 27, 71, 242, 119, 175, 65, 207]
    (some [16, 34, 19, 23, 141, 4, 207, 221]) 1 _ (by decide)

theorem hashPow_comm (h : List Nat → List Nat) :
    ∀ n x, hashPow h n (h x) = h (hashPow h n x) := by
  intro n
  induction n with
  | zero => intro x; rfl
  | succ n ih => intro x; simp only [hashPow, ih]

theorem iterHash_eq_hashPow (h : List Nat → List Nat) :
    ∀ n x, iterHash h n x = hashPow h n x := by
  intro n
  induction n with
  | zero => intro x; rfl
  | succ n ih => intro x; rw [iterHash, ih, hashPow_comm, hashPow]

theorem iterHash_block (h : List Nat → List Nat) (count : Nat) (hc : 1 ≤ count) (x : List Nat) :
    iterHash h (count - 1) (h x) = hashPow h count x := by
  rw [iterHash_eq_hashPow, hashPow_comm]
  cases count with
  | zero => omega
  | succ k => rfl

theorem evpChain_eq_legacyD (h : List Nat → List Nat) (data s : List Nat) (count : Nat)
    (hc : 1 ≤ count) :
    ∀ n i, evpChain h data s count n (legacyD h data s count i) =
      (List.range n).map (fun j => legacyD h data s count (i + j + 1)) := by
  intro n
  induction n with
  | zero => intro i; simp [evpChain]
  | succ n ih =>
      intro i
      have hstep : evpChain h data s count (n + 1) (legacyD h data s count i)
          = iterHash h (count - 1) (h (legacyD h data s count i ++ data ++ s))
            :: evpChain h data s count n (iterHash h (count - 1) (h (legacyD h data s count i ++ data ++ s))) := rfl
      have hd : iterHash h (count - 1) (h (legacyD h data s count i ++ data ++ s))
          = legacyD h data s count (i + 1) := by
        rw [iterHash_block h count hc]
        rfl
      have hfun : ((fun j => legacyD h data s count (i + j + 1)) ∘ Nat.succ)
          = (fun j => legacyD h data s count (i + 1 + j + 1)) := by
        funext j
        simp only [Function.comp]
        congr 1
        omega
      rw [hstep, hd, ih (i + 1), List.range_succ_eq_map, List.map_cons, List.map_map, hfun]

theorem evpStream_eq_ref (typ : SymmType) (mdt : HashType) (data s : List Nat) (count : Nat)
    (hc : 1 ≤ count) :
    evpStream typ mdt data s count =
      legacyRefStream (evpMd mdt) data s count (legacyBlockCount typ mdt) := by
  have h0 : ([] : List Nat) = legacyD (evpMd mdt) data s count 0 := rfl
  have hfun : (fun j => legacyD (evpMd mdt) data s count (0 + j + 1))
      = (fun i => legacyD (evpMd mdt) data s count (i + 1)) := by
    funext j
    congr 1
    omega
  rw [evpStream, h0, evpChain_eq_legacyD (evpMd mdt) data s count hc, hfun]
  rfl

/-- C5, counterexample: the claim says the returned iv consists of exactly
the iv-length stream bytes following the key; for AES-256-CBC the returned
iv field is instead the 32-byte buffer (16 stream bytes plus zero padding),
so it differs from the reference IV. -/
theorem c5_counterexample :
    Outcome.isOk (evp_bytes_to_key_pbkdf1_compatible SymmType.AES_256_CBC HashType.SHA1 [1] none 1) = true ∧
    ivBytesOf (evp_bytes_to_key_pbkdf1_compatible SymmType.AES_256_CBC HashType.SHA1 [1] none 1)
      ≠ legacyRefIv SymmType.AES_256_CBC HashType.SHA1 [1] [] 1 := by
  decide

/-- C5 (amended): for every hash type, secret, valid optional salt and
positive iteration count, the legacy derivation equals the reference
hash-chaining algorithm: D_0 empty, D_i the count-fold hash of
(D_(i-1) || secret || salt), blocks concatenated until key length plus IV
length bytes are available (only the last block truncated); the key is the
first key-length bytes, and the iv field carries the next iv-length bytes
followed by zero padding up to the cipher's key length. -/
theorem c5_legacy_matches_reference (typ : SymmType) (mdt : HashType) (data : List Nat)
    (salt : Option (List Nat)) (count : Nat) (hs : saltOk salt = true) (hc : 1 ≤ count) :
    evp_bytes_to_key_pbkdf1_compatible typ mdt data salt count =
      Outcome.ok { key := legacyRefKey typ mdt data (salt.getD []) count,
                   iv := legacyRefIv typ mdt data (salt.getD []) count
                         ++ List.replicate ((evpc typ).1 - (evpc typ).2) 0 } := by
  rw [evp_ok typ mdt data salt count hs (by omega)]
  rw [legacyRefKey, legacyRefIv, ← evpStream_eq_ref typ mdt data (salt.getD []) count hc]

/-- C5 witness: concrete instance (AES-128-CBC, SHA-1, one-byte secret, no
salt, one iteration). -/
theorem c5_legacy_matches_reference_witness :
    saltOk none = true ∧
    evp_bytes_to_key_pbkdf1_compatible SymmType.AES_128_CBC HashType.SHA1 [7] none 1 =
      Outcome.ok { key := legacyRefKey SymmType.AES_128_CBC HashType.SHA1 [7] [] 1,
                   iv := legacyRefIv SymmType.AES_128_CBC HashType.SHA1 [7] [] 1
                         ++ List.replicate ((evpc SymmType.AES_128_CBC).1 - (evpc SymmType.AES_128_CBC).2) 0 } :=
  ⟨by decide, c5_legacy_matches_reference SymmType.AES_128_CBC HashType.SHA1 [7] none 1 (by decide) (by decide)⟩

theorem forceN_eq (n : Nat) (k : Nat → Nat × Nat) : forceN n k = k n := by
  cases n <;> rfl

theorem innerP_succ (ist ost n u acc : Nat) :
    innerP ist ost (n + 1) u acc
      = innerP ist ost n (hmacPacked ist ost u) (Nat.xor acc (hmacPacked ist ost u)) := by
  show forceN (hmacPacked ist ost u) (fun u2 => forceN (Nat.xor acc u2) fun acc2 => innerP ist ost n u2 acc2) = _
  rw [forceN_eq, forceN_eq]

/-! Packing lemmas relating the byte-list interface to packed Nat values. -/

theorem xor_div_pow (a b m : Nat) : (a ^^^ b) / 2 ^ m = (a / 2 ^ m) ^^^ (b / 2 ^ m) := by
  rw [← Nat.shiftRight_eq_div_pow, ← Nat.shiftRight_eq_div_pow, ← Nat.shiftRight_eq_div_pow]
  apply Nat.eq_of_testBit_eq
  intro i
  simp

theorem xor_mod_pow (a b m : Nat) : (a ^^^ b) % 2 ^ m = (a % 2 ^ m) ^^^ (b % 2 ^ m) := by
  apply Nat.eq_of_testBit_eq
  intro i
  simp only [Nat.testBit_mod_two_pow, Nat.testBit_xor]
  cases h : decide (i < m) <;> simp [h]

theorem natToBytesBE_xor : ∀ k a b, natToBytesBE k (Nat.xor a b)
    = List.zipWith Nat.xor (natToBytesBE k a) (natToBytesBE k b) := by
  intro k
  induction k with
  | zero => intro a b; rfl
  | succ k ih =>
      intro a b
      show (Nat.xor a b / 2 ^ (8 * k)) % 256 :: natToBytesBE k (Nat.xor a b)
          = Nat.xor ((a / 2 ^ (8 * k)) % 256) ((b / 2 ^ (8 * k)) % 256)
            :: List.zipWith Nat.xor (natToBytesBE k a) (natToBytesBE k b)
      rw [ih]
      congr 1
      show (a ^^^ b) / 2 ^ (8 * k) % 256 = (a / 2 ^ (8 * k) % 256) ^^^ (b / 2 ^ (8 * k) % 256)
      rw [xor_div_pow]
      have h256 : (256 : Nat) = 2 ^ 8 := by norm_num
      rw [h256, xor_mod_pow]

theorem xorBytes_natToBytes (k a b : Nat) :
    xorBytes (natToBytesBE k a) (natToBytesBE k b) = natToBytesBE k (Nat.xor a b) := by
  rw [xorBytes, natToBytesBE_xor]

theorem packBytesBE_append : ∀ l1 l2 : List Nat,
    packBytesBE (l1 ++ l2) = packBytesBE l1 * 2 ^ (8 * l2.length) + packBytesBE l2 := by
  intro l1 l2
  induction l1 with
  | nil => simp [packBytesBE]
  | cons b t ih =>
      have hstep : packBytesBE ((b :: t) ++ l2)
          = b * 2 ^ (8 * (t ++ l2).length) + packBytesBE (t ++ l2) := rfl
      have hcons : packBytesBE (b :: t) = b * 2 ^ (8 * t.length) + packBytesBE t := rfl
      rw [hstep, ih, List.length_append, hcons]
      ring

theorem packBytesBE_natToBytesBE : ∀ k n, packBytesBE (natToBytesBE k n) = n % 2 ^ (8 * k) := by
  intro k
  induction k with
  | zero => intro n; simp [natToBytesBE, packBytesBE, Nat.mod_one]
  | succ k ih =>
      intro n
      simp only [natToBytesBE, packBytesBE, natToBytesBE_length, ih]
      have hsp : 8 * (k + 1) = 8 * k + 8 := by ring
      rw [hsp, Nat.pow_add]
      have h256 : (2 : Nat) ^ 8 = 256 := by norm_num
      rw [h256, Nat.mod_mul]
      ring

theorem chunks64_single (l : List Nat) (h : l.length = 64) : chunks64 l = [l] := by
  rcases l with _ | ⟨b, t⟩
  · simp at h
  · rw [chunks64, h]
    show (b :: t).take 64 :: chunksAux 63 ((b :: t).drop 64) = [b :: t]
    have hle : (b :: t).length ≤ 64 := by omega
    rw [List.take_of_length_le hle, List.drop_eq_nil_of_le hle]
    rfl

theorem sha1Comp_lt (s m : Nat) : sha1Comp s m < 2 ^ 160 := by
  have hand : ∀ x : Nat, Nat.land x 0xFFFFFFFF < 2 ^ 32 := by
    intro x
    exact Nat.and_lt_two_pow x (by norm_num)
  have hshl : ∀ x j k : Nat, x < 2 ^ k → Nat.shiftLeft x j < 2 ^ (k + j) := by
    intro x j k hx
    show x <<< j < 2 ^ (k + j)
    rw [Nat.shiftLeft_eq, Nat.pow_add]
    exact Nat.mul_lt_mul_of_pos_right hx (by positivity)
  have hle : ∀ x a : Nat, x < 2 ^ a → a ≤ 160 → x < 2 ^ 160 := by
    intro x a hx ha
    exact lt_of_lt_of_le hx (Nat.pow_le_pow_right (by norm_num) ha)
  unfold sha1Comp
  apply Nat.or_lt_two_pow
  · exact hle _ 160 (hshl _ 128 32 (hand _)) (by norm_num)
  apply Nat.or_lt_two_pow
  · exact hle _ 128 (hshl _ 96 32 (hand _)) (by norm_num)
  apply Nat.or_lt_two_pow
  · exact hle _ 96 (hshl _ 64 32 (hand _)) (by norm_num)
  apply Nat.or_lt_two_pow
  · exact hle _ 64 (hshl _ 32 32 (hand _)) (by norm_num)
  · exact hle _ 32 (hand _) (by norm_num)

theorem sha1FromState_block20 (st x : Nat) (hx : x < 2 ^ 160) :
    sha1FromState st 64 (natToBytesBE 20 x) = sha1Comp st (x * P352 + TAILC) := by
  unfold sha1FromState
  rw [natToBytesBE_length]
  norm_num
  have h8 : (natToBytesBE 8 672).length = 8 := natToBytesBE_length 8 672
  have h20 : (natToBytesBE 20 x).length = 20 := natToBytesBE_length 20 x
  have hP : (natToBytesBE 20 x ++ (128 : Nat) :: (List.replicate 35 0 ++ lenBytes64 672)).length = 64 := by
    simp [lenBytes64, h8, h20]
  rw [chunks64_single _ hP]
  show sha1Comp st (packBytesBE (natToBytesBE 20 x ++ (128 : Nat) :: (List.replicate 35 0 ++ lenBytes64 672))) = _
  rw [packBytesBE_append, packBytesBE_natToBytesBE]
  rw [Nat.mod_eq_of_lt (show x < 2 ^ (8 * 20) from by simpa using hx)]
  have hlen : ((128 : Nat) :: (List.replicate 35 0 ++ lenBytes64 672)).length = 44 := by
    simp [lenBytes64, h8]
  have htail : packBytesBE ((128 : Nat) :: (List.replicate 35 0 ++ lenBytes64 672)) = TAILC := by
    decide
  rw [hlen, htail]
  norm_num [P352]

theorem hmacStates_packed (ist ost u : Nat) (hu : u < 2 ^ 160) :
    hmacStates ist ost (natToBytesBE 20 u) = natToBytesBE 20 (hmacPacked ist ost u) := by
  unfold hmacStates hmacPacked
  rw [sha1FromState_block20 ist u hu,
    sha1FromState_block20 ost (sha1Comp ist (u * P352 + TAILC)) (sha1Comp_lt _ _)]

/-- The byte-list inner loop over packed-state HMAC agrees with the packed
inner loop. -/
theorem pbkdf2InnerF_packed (ist ost : Nat) :
    ∀ n u acc, u < 2 ^ 160 → acc < 2 ^ 160 →
      pbkdf2InnerF (hmacStates ist ost) n (natToBytesBE 20 u) (natToBytesBE 20 acc)
        = natToBytesBE 20 (innerP ist ost n u acc).2 := by
  intro n
  induction n with
  | zero => intro u acc hu hacc; rfl
  | succ n ih =>
      intro u acc hu hacc
      rw [innerP_succ]
      show pbkdf2InnerF (hmacStates ist ost) n (hmacStates ist ost (natToBytesBE 20 u))
          (xorBytes (natToBytesBE 20 acc) (hmacStates ist ost (natToBytesBE 20 u))) = _
      rw [hmacStates_packed ist ost u hu, xorBytes_natToBytes]
      exact ih (hmacPacked ist ost u) (Nat.xor acc (hmacPacked ist ost u))
        (sha1Comp_lt _ _) (Nat.xor_lt_two_pow hacc (sha1Comp_lt _ _))

/-- Composition of the packed inner loop: running m + n iterations equals
running m iterations, then n more from the state reached. -/
theorem innerP_add (ist ost m n u acc : Nat) :
    innerP ist ost (m + n) u acc
      = innerP ist ost n (innerP ist ost m u acc).1 (innerP ist ost m u acc).2 := by
  induction m generalizing u acc with
  | zero => rw [Nat.zero_add]; rfl
  | succ m ih =>
      have e : m + 1 + n = m + n + 1 := by omega
      rw [e, innerP_succ, innerP_succ, ih]

/-- Chunked evaluation step for the packed inner loop. -/
theorem innerP_split (ist ost m n u acc mu ma : Nat)
    (h1 : innerP ist ost m u acc = (mu, ma)) :
    innerP ist ost (m + n) u acc = innerP ist ost n mu ma := by
  rw [innerP_add, h1]

set_option maxHeartbeats 0 in
/-- C2: the PBKDF2-HMAC-SHA1 derivation reproduces the standard test vectors:
(password, salt, 1, 20), (password, salt, 2, 20), (password, salt, 4096, 20)
and (pass-NUL-word, sa-NUL-lt, 4096, 16) give the published outputs. -/
theorem c2_pbkdf2_test_vectors :
    pbkdf2_hmac_sha1 passwordBytes saltVecBytes 1 20
      = Outcome.ok [0x0c, 0x60, 0xc8, 0x0f, 0x96, 0x1f, 0x0e, 0x71, 0xf3, 0xa9,
          0xb5, 0x24, 0xaf, 0x60, 0x12, 0x06, 0x2f, 0xe0, 0x37, 0xa6] ∧
    pbkdf2_hmac_sha1 passwordBytes saltVecBytes 2 20
      = Outcome.ok [0xea, 0x6c, 0x01, 0x4d, 0xc7, 0x2d, 0x6f, 0x8c, 0xcd, 0x1e,
          0xd9, 0x2a, 0xce, 0x1d, 0x41, 0xf0, 0xd8, 0xde, 0x89, 0x57] ∧
    pbkdf2_hmac_sha1 passwordBytes saltVecBytes 4096 20
      = Outcome.ok [0x4b, 0x00, 0x79, 0x01, 0xb7, 0x65, 0x48, 0x9a, 0xbe, 0xad,
          0x49, 0xd9, 0x26, 0xf7, 0x21, 0xd0, 0x65, 0xa4, 0x29, 0xc1] ∧
    pbkdf2_hmac_sha1 passNulBytes saltNulBytes 4096 16
      = Outcome.ok [0x56, 0xfa, 0x6a, 0xa7, 0x55, 0x48, 0x09, 0x9d, 0xcc, 0x37,
          0xd7, 0xf0, 0x34, 0x25, 0xe0, 0xc3] := by
  refine ⟨by decide!, by decide!, ?_, ?_⟩
  · have hist : istOf passwordBytes = 47426808440043841396942578228251196808973721413 := by
      decide!
    have host : ostOf passwordBytes = 1374340559572837437154991789386899998825990987423 := by
      decide!
    have hfn : hmacSha1 passwordBytes
        = hmacStates 47426808440043841396942578228251196808973721413
            1374340559572837437154991789386899998825990987423 := by
      funext msg
      show hmacStates (istOf passwordBytes) (ostOf passwordBytes) msg = _
      rw [hist, host]
    have hu1 : hmacStates 47426808440043841396942578228251196808973721413
          1374340559572837437154991789386899998825990987423 (saltVecBytes ++ be32 1)
        = natToBytesBE 20 70666188549912323528070229320736245482296194982 := by
      decide!
    rw [pbkdf2_ok passwordBytes saltVecBytes 4096 20 (by omega) (by omega)]
    have hblocks : pbkdf2Blocks passwordBytes saltVecBytes 4096 ((20 + 19) / 20) 1
        = pbkdf2T passwordBytes saltVecBytes 4096 1 ++ [] := rfl
    have hT : pbkdf2T passwordBytes saltVecBytes 4096 1
        = pbkdf2InnerF (hmacSha1 passwordBytes) 4095
            (hmacSha1 passwordBytes (saltVecBytes ++ be32 1))
            (hmacSha1 passwordBytes (saltVecBytes ++ be32 1)) := rfl
    rw [hblocks, hT, hfn, hu1]
    rw [pbkdf2InnerF_packed 47426808440043841396942578228251196808973721413
      1374340559572837437154991789386899998825990987423 4095
      70666188549912323528070229320736245482296194982
      70666188549912323528070229320736245482296194982 (by decide) (by decide)]
    have hbig : innerP 47426808440043841396942578228251196808973721413 1374340559572837437154991789386899998825990987423 4095 70666188549912323528070229320736245482296194982 70666188549912323528070229320736245482296194982
        = (640271008311516926335682457408303198696977505913, 428184848982442692033260253010273098022762326465) := by
      have sa0 : innerP 47426808440043841396942578228251196808973721413 1374340559572837437154991789386899998825990987423 4095 70666188549912323528070229320736245482296194982 70666188549912323528070229320736245482296194982
          = innerP 47426808440043841396942578228251196808973721413 1374340559572837437154991789386899998825990987423 3967 1251048232825190646950123958523875119071537742655 241829357081165499608793556086154091778641988130 :=
        innerP_split 47426808440043841396942578228251196808973721413 1374340559572837437154991789386899998825990987423 128 3967 70666188549912323528070229320736245482296194982 70666188549912323528070229320736245482296194982
          1251048232825190646950123958523875119071537742655 241829357081165499608793556086154091778641988130 (by decide!)
      have sa1 : innerP 47426808440043841396942578228251196808973721413 1374340559572837437154991789386899998825990987423 3967 1251048232825190646950123958523875119071537742655 241829357081165499608793556086154091778641988130
          = innerP 47426808440043841396942578228251196808973721413 1374340559572837437154991789386899998825990987423 3839 1260301117398752237742746102142298935371175315293 221261120637004589264513594412391035447085958121 :=
        innerP_split 47426808440043841396942578228251196808973721413 1374340559572837437154991789386899998825990987423 128 3839 1251048232825190646950123958523875119071537742655 241829357081165499608793556086154091778641988130
          1260301117398752237742746102142298935371175315293 221261120637004589264513594412391035447085958121 (by decide!)
      have sa2 : innerP 47426808440043841396942578228251196808973721413 1374340559572837437154991789386899998825990987423 3839 1260301117398752237742746102142298935371175315293 221261120637004589264513594412391035447085958121
          = innerP 47426808440043841396942578228251196808973721413 1374340559572837437154991789386899998825990987423 3711 932397404473241713484555418182786149655195355935 117632935358794955703638131735656553048860982385 :=
        innerP_split 47426808440043841396942578228251196808973721413 1374340559572837437154991789386899998825990987423 128 3711 1260301117398752237742746102142298935371175315293 221261120637004589264513594412391035447085958121
          932397404473241713484555418182786149655195355935 117632935358794955703638131735656553048860982385 (by decide!)
      have sa3 : innerP 47426808440043841396942578228251196808973721413 1374340559572837437154991789386899998825990987423 3711 932397404473241713484555418182786149655195355935 117632935358794955703638131735656553048860982385
          = innerP 47426808440043841396942578228251196808973721413 1374340559572837437154991789386899998825990987423 3583 637187795572580786372142398852606047365537292831 1364263554611231478704390880962406762465910700973 :=
        innerP_split 47426808440043841396942578228251196808973721413 1374340559572837437154991789386899998825990987423 128 3583 932397404473241713484555418182786149655195355935 117632935358794955703638131735656553048860982385
          637187795572580786372142398852606047365537292831 1364263554611231478704390880962406762465910700973 (by decide!)
      have sa4 : innerP 47426808440043841396942578228251196808973721413 1374340559572837437154991789386899998825990987423 3583 637187795572580786372142398852606047365537292831 1364263554611231478704390880962406762465910700973
          = innerP 47426808440043841396942578228251196808973721413 1374340559572837437154991789386899998825990987423 3455 1041921765369448468954955657131587638335759609262 590370284568778097613891462267994018656551998685 :=
        innerP_split 47426808440043841396942578228251196808973721413 1374340559572837437154991789386899998825990987423 128 3455 637187795572580786372142398852606047365537292831 1364263554611231478704390880962406762465910700973
          1041921765369448468954955657131587638335759609262 590370284568778097613891462267994018656551998685 (by decide!)
      have sa5 : innerP 47426808440043841396942578228251196808973721413 1374340559572837437154991789386899998825990987423 3455 1041921765369448468954955657131587638335759609262 590370284568778097613891462267994018656551998685
          = innerP 47426808440043841396942578228251196808973721413 1374340559572837437154991789386899998825990987423 3327 23563303689802470453812664878289294562597684831 542823840874337186650659989350909288597609578357 :=
        innerP_split 47426808440043841396942578228251196808973721413 1374340559572837437154991789386899998825990987423 128 3327 1041921765369448468954955657131587638335759609262 590370284568778097613891462267994018656551998685
          23563303689802470453812664878289294562597684831 542823840874337186650659989350909288597609578357 (by decide!)
      have sa6 : innerP 47426808440043841396942578228251196808973721413 1374340559572837437154991789386899998825990987423 3327 23563303689802470453812664878289294562597684831 542823840874337186650659989350909288597609578357
          = innerP 47426808440043841396942578228251196808973721413 1374340559572837437154991789386899998825990987423 3199 1144766061056689576899172704005734412516669096813 178534539025415710927529402436448101668958997376 :=
        innerP_split 47426808440043841396942578228251196808973721413 1374340559572837437154991789386899998825990987423 128 3199 23563303689802470453812664878289294562597684831 542823840874337186650659989350909288597609578357
          1144766061056689576899172704005734412516669096813 178534539025415710927529402436448101668958997376 (by decide!)
      have sa7 : innerP 47426808440043841396942578228251196808973721413 1374340559572837437154991789386899998825990987423 3199 1144766061056689576899172704005734412516669096813 178534539025415710927529402436448101668958997376
          = innerP 47426808440043841396942578228251196808973721413 1374340559572837437154991789386899998825990987423 3071 1066012637476559094715771022110880459957899786383 384870853162554354872522924720593825098006341765 :=
        innerP_split 47426808440043841396942578228251196808973721413 1374340559572837437154991789386899998825990987423 128 3071 1144766061056689576899172704005734412516669096813 178534539025415710927529402436448101668958997376
          1066012637476559094715771022110880459957899786383 384870853162554354872522924720593825098006341765 (by decide!)
      have sa8 : innerP 47426808440043841396942578228251196808973721413 1374340559572837437154991789386899998825990987423 3071 1066012637476559094715771022110880459957899786383 384870853162554354872522924720593825098006341765
          = innerP 47426808440043841396942578228251196808973721413 1374340559572837437154991789386899998825990987423 2943 1319321364413903826851797441671130938335439158452 240939768026313988040499307612122760670898619999 :=
        innerP_split 47426808440043841396942578228251196808973721413 1374340559572837437154991789386899998825990987423 128 2943 1066012637476559094715771022110880459957899786383 384870853162554354872522924720593825098006341765
          1319321364413903826851797441671130938335439158452 240939768026313988040499307612122760670898619999 (by decide!)
      have sa9 : innerP 47426808440043841396942578228251196808973721413 1374340559572837437154991789386899998825990987423 2943 1319321364413903826851797441671130938335439158452 240939768026313988040499307612122760670898619999
          = innerP 47426808440043841396942578228251196808973721413 1374340559572837437154991789386899998825990987423 2815 315150282710248737863993499374182185862054361460 929402669121665844164036094567278650316935240433 :=
        innerP_split 47426808440043841396942578228251196808973721413 1374340559572837437154991789386899998825990987423 128 2815 1319321364413903826851797441671130938335439158452 240939768026313988040499307612122760670898619999
          315150282710248737863993499374182185862054361460 929402669121665844164036094567278650316935240433 (by decide!)
      have sa10 : innerP 47426808440043841396942578228251196808973721413 1374340559572837437154991789386899998825990987423 2815 315150282710248737863993499374182185862054361460 929402669121665844164036094567278650316935240433
          = innerP 47426808440043841396942578228251196808973721413 1374340559572837437154991789386899998825990987423 2687 216117183335493600246340130876222108785045054323 1072640362721724535953254539409287022306266761595 :=
        innerP_split 47426808440043841396942578228251196808973721413 1374340559572837437154991789386899998825990987423 128 2687 315150282710248737863993499374182185862054361460 929402669121665844164036094567278650316935240433
          216117183335493600246340130876222108785045054323 1072640362721724535953254539409287022306266761595 (by decide!)
      have sa11 : innerP 47426808440043841396942578228251196808973721413 1374340559572837437154991789386899998825990987423 2687 216117183335493600246340130876222108785045054323 1072640362721724535953254539409287022306266761595
          = innerP 47426808440043841396942578228251196808973721413 1374340559572837437154991789386899998825990987423 2559 590341573382182455282605825688056366848257762647 983053658124969137848532009866636808472151273007 :=
        innerP_split 47426808440043841396942578228251196808973721413 1374340559572837437154991789386899998825990987423 128 2559 216117183335493600246340130876222108785045054323 1072640362721724535953254539409287022306266761595
          590341573382182455282605825688056366848257762647 983053658124969137848532009866636808472151273007 (by decide!)
      have sa12 : innerP 47426808440043841396942578228251196808973721413 1374340559572837437154991789386899998825990987423 2559 590341573382182455282605825688056366848257762647 983053658124969137848532009866636808472151273007
          = innerP 47426808440043841396942578228251196808973721413 1374340559572837437154991789386899998825990987423 2431 750307033432274644291346515788616617182468354137 1012238991562292905397126812953651235845970707523 :=
        innerP_split 47426808440043841396942578228251196808973721413 1374340559572837437154991789386899998825990987423 128 2431 590341573382182455282605825688056366848257762647 983053658124969137848532009866636808472151273007
          750307033432274644291346515788616617182468354137 1012238991562292905397126812953651235845970707523 (by decide!)
      have sa13 : innerP 47426808440043841396942578228251196808973721413 1374340559572837437154991789386899998825990987423 2431 750307033432274644291346515788616617182468354137 1012238991562292905397126812953651235845970707523
          = innerP 47426808440043841396942578228251196808973721413 1374340559572837437154991789386899998825990987423 2303 242333202306140369306539727153798282022687786694 560655238180387508703353750430401537271494226558 :=
        innerP_split 47426808440043841396942578228251196808973721413 1374340559572837437154991789386899998825990987423 128 2303 750307033432274644291346515788616617182468354137 1012238991562292905397126812953651235845970707523
          242333202306140369306539727153798282022687786694 560655238180387508703353750430401537271494226558 (by decide!)
      have sa14 : innerP 47426808440043841396942578228251196808973721413 1374340559572837437154991789386899998825990987423 2303 242333202306140369306539727153798282022687786694 560655238180387508703353750430401537271494226558
          = innerP 47426808440043841396942578228251196808973721413 1374340559572837437154991789386899998825990987423 2175 632294397311624789013523068454030070839649892505 1179349201566831892359598203754783318310324739039 :=
        innerP_split 47426808440043841396942578228251196808973721413 1374340559572837437154991789386899998825990987423 128 2175 242333202306140369306539727153798282022687786694 560655238180387508703353750430401537271494226558
          632294397311624789013523068454030070839649892505 1179349201566831892359598203754783318310324739039 (by decide!)
      have sa15 : innerP 47426808440043841396942578228251196808973721413 1374340559572837437154991789386899998825990987423 2175 632294397311624789013523068454030070839649892505 1179349201566831892359598203754783318310324739039
          = innerP 47426808440043841396942578228251196808973721413 1374340559572837437154991789386899998825990987423 2047 273973428541532016678161361145454785411138626939 22449864082836252775361181189651643888491247416 :=
        innerP_split 47426808440043841396942578228251196808973721413 1374340559572837437154991789386899998825990987423 128 2047 632294397311624789013523068454030070839649892505 1179349201566831892359598203754783318310324739039
          273973428541532016678161361145454785411138626939 22449864082836252775361181189651643888491247416 (by decide!)
      have sa16 : innerP 47426808440043841396942578228251196808973721413 1374340559572837437154991789386899998825990987423 2047 273973428541532016678161361145454785411138626939 22449864082836252775361181189651643888491247416
          = innerP 47426808440043841396942578228251196808973721413 1374340559572837437154991789386899998825990987423 1919 525695906973277592192755367097739088880768211810 1217989013208517578501993891371962489237483900554 :=
        innerP_split 47426808440043841396942578228251196808973721413 1374340559572837437154991789386899998825990987423 128 1919 273973428541532016678161361145454785411138626939 22449864082836252775361181189651643888491247416
          525695906973277592192755367097739088880768211810 1217989013208517578501993891371962489237483900554 (by decide!)
      have sa17 : innerP 47426808440043841396942578228251196808973721413 1374340559572837437154991789386899998825990987423 1919 525695906973277592192755367097739088880768211810 1217989013208517578501993891371962489237483900554
          = innerP 47426808440043841396942578228251196808973721413 1374340559572837437154991789386899998825990987423 1791 1068341663326103032077764180742988953573157510323 1349488929816742758964816580651703808533431084817 :=
        innerP_split 47426808440043841396942578228251196808973721413 1374340559572837437154991789386899998825990987423 128 1791 525695906973277592192755367097739088880768211810 1217989013208517578501993891371962489237483900554
          1068341663326103032077764180742988953573157510323 1349488929816742758964816580651703808533431084817 (by decide!)
      have sa18 : innerP 47426808440043841396942578228251196808973721413 1374340559572837437154991789386899998825990987423 1791 1068341663326103032077764180742988953573157510323 1349488929816742758964816580651703808533431084817
          = innerP 47426808440043841396942578228251196808973721413 1374340559572837437154991789386899998825990987423 1663 744265366829528608926727795050929835422913260239 490511268230549769456097127633911677510873632150 :=
        innerP_split 47426808440043841396942578228251196808973721413 1374340559572837437154991789386899998825990987423 128 1663 1068341663326103032077764180742988953573157510323 1349488929816742758964816580651703808533431084817
          744265366829528608926727795050929835422913260239 490511268230549769456097127633911677510873632150 (by decide!)
      have sa19 : innerP 47426808440043841396942578228251196808973721413 1374340559572837437154991789386899998825990987423 1663 744265366829528608926727795050929835422913260239 490511268230549769456097127633911677510873632150
          = innerP 47426808440043841396942578228251196808973721413 1374340559572837437154991789386899998825990987423 1535 287344877276439981503431532671280656906524002883 609347980539087941221928311058373430151053611575 :=
        innerP_split 47426808440043841396942578228251196808973721413 1374340559572837437154991789386899998825990987423 128 1535 744265366829528608926727795050929835422913260239 490511268230549769456097127633911677510873632150
          287344877276439981503431532671280656906524002883 609347980539087941221928311058373430151053611575 (by decide!)
      have sa20 : innerP 47426808440043841396942578228251196808973721413 1374340559572837437154991789386899998825990987423 1535 287344877276439981503431532671280656906524002883 609347980539087941221928311058373430151053611575
          = innerP 47426808440043841396942578228251196808973721413 1374340559572837437154991789386899998825990987423 1407 1081009358858199629367133064197461124661618390136 962411608586592620455913850875497879310374396104 :=
        innerP_split 47426808440043841396942578228251196808973721413 1374340559572837437154991789386899998825990987423 128 1407 287344877276439981503431532671280656906524002883 609347980539087941221928311058373430151053611575
          1081009358858199629367133064197461124661618390136 962411608586592620455913850875497879310374396104 (by decide!)
      have sa21 : innerP 47426808440043841396942578228251196808973721413 1374340559572837437154991789386899998825990987423 1407 1081009358858199629367133064197461124661618390136 962411608586592620455913850875497879310374396104
          = innerP 47426808440043841396942578228251196808973721413 1374340559572837437154991789386899998825990987423 1279 747943183556878551601493423808788515560656356196 882389902215213848768114466215504347242049141144 :=
        innerP_split 47426808440043841396942578228251196808973721413 1374340559572837437154991789386899998825990987423 128 1279 1081009358858199629367133064197461124661618390136 962411608586592620455913850875497879310374396104
          747943183556878551601493423808788515560656356196 882389902215213848768114466215504347242049141144 (by decide!)
      have sa22 : innerP 47426808440043841396942578228251196808973721413 1374340559572837437154991789386899998825990987423 1279 747943183556878551601493423808788515560656356196 882389902215213848768114466215504347242049141144
          = innerP 47426808440043841396942578228251196808973721413 1374340559572837437154991789386899998825990987423 1151 715626177188428321555480452697172008925561609065 744990361554875066046082506097748781635619144745 :=
        innerP_split 47426808440043841396942578228251196808973721413 1374340559572837437154991789386899998825990987423 128 1151 747943183556878551601493423808788515560656356196 882389902215213848768114466215504347242049141144
          715626177188428321555480452697172008925561609065 744990361554875066046082506097748781635619144745 (by decide!)
      have sa23 : innerP 47426808440043841396942578228251196808973721413 1374340559572837437154991789386899998825990987423 1151 715626177188428321555480452697172008925561609065 744990361554875066046082506097748781635619144745
          = innerP 47426808440043841396942578228251196808973721413 1374340559572837437154991789386899998825990987423 1023 161198699436525649000795611136681882443310521028 861969605463992981173096307803240033310777077739 :=
        innerP_split 47426808440043841396942578228251196808973721413 1374340559572837437154991789386899998825990987423 128 1023 715626177188428321555480452697172008925561609065 744990361554875066046082506097748781635619144745
          161198699436525649000795611136681882443310521028 861969605463992981173096307803240033310777077739 (by decide!)
      have sa24 : innerP 47426808440043841396942578228251196808973721413 1374340559572837437154991789386899998825990987423 1023 161198699436525649000795611136681882443310521028 861969605463992981173096307803240033310777077739
          = innerP 47426808440043841396942578228251196808973721413 1374340559572837437154991789386899998825990987423 895 83490006281618089222436496741649536115435835934 745803217584027219153480042748104920780533925252 :=
        innerP_split 47426808440043841396942578228251196808973721413 1374340559572837437154991789386899998825990987423 128 895 161198699436525649000795611136681882443310521028 861969605463992981173096307803240033310777077739
          83490006281618089222436496741649536115435835934 745803217584027219153480042748104920780533925252 (by decide!)
      have sa25 : innerP 47426808440043841396942578228251196808973721413 1374340559572837437154991789386899998825990987423 895 83490006281618089222436496741649536115435835934 745803217584027219153480042748104920780533925252
          = innerP 47426808440043841396942578228251196808973721413 1374340559572837437154991789386899998825990987423 767 1066911352643617503852011087277072074626441749616 505978220139594879196519501860233728560049018302 :=
        innerP_split 47426808440043841396942578228251196808973721413 1374340559572837437154991789386899998825990987423 128 767 83490006281618089222436496741649536115435835934 745803217584027219153480042748104920780533925252
          1066911352643617503852011087277072074626441749616 505978220139594879196519501860233728560049018302 (by decide!)
      have sa26 : innerP 47426808440043841396942578228251196808973721413 1374340559572837437154991789386899998825990987423 767 1066911352643617503852011087277072074626441749616 505978220139594879196519501860233728560049018302
          = innerP 47426808440043841396942578228251196808973721413 1374340559572837437154991789386899998825990987423 639 793139271710515897337487635329912830010951155488 302618746866404459068936908924264365999032478435 :=
        innerP_split 47426808440043841396942578228251196808973721413 1374340559572837437154991789386899998825990987423 128 639 1066911352643617503852011087277072074626441749616 505978220139594879196519501860233728560049018302
          793139271710515897337487635329912830010951155488 302618746866404459068936908924264365999032478435 (by decide!)
      have sa27 : innerP 47426808440043841396942578228251196808973721413 1374340559572837437154991789386899998825990987423 639 793139271710515897337487635329912830010951155488 302618746866404459068936908924264365999032478435
          = innerP 47426808440043841396942578228251196808973721413 1374340559572837437154991789386899998825990987423 511 987666565536649288020122268075875834192866598182 18396619224426359909054035824706167529139124753 :=
        innerP_split 47426808440043841396942578228251196808973721413 1374340559572837437154991789386899998825990987423 128 511 793139271710515897337487635329912830010951155488 302618746866404459068936908924264365999032478435
          987666565536649288020122268075875834192866598182 18396619224426359909054035824706167529139124753 (by decide!)
      have sa28 : innerP 47426808440043841396942578228251196808973721413 1374340559572837437154991789386899998825990987423 511 987666565536649288020122268075875834192866598182 18396619224426359909054035824706167529139124753
          = innerP 47426808440043841396942578228251196808973721413 1374340559572837437154991789386899998825990987423 383 161388167086489331462253066703889389102113758532 1136780708248179466415506441706607923158926250324 :=
        innerP_split 47426808440043841396942578228251196808973721413 1374340559572837437154991789386899998825990987423 128 383 987666565536649288020122268075875834192866598182 18396619224426359909054035824706167529139124753
          161388167086489331462253066703889389102113758532 1136780708248179466415506441706607923158926250324 (by decide!)
      have sa29 : innerP 47426808440043841396942578228251196808973721413 1374340559572837437154991789386899998825990987423 383 161388167086489331462253066703889389102113758532 1136780708248179466415506441706607923158926250324
          = innerP 47426808440043841396942578228251196808973721413 1374340559572837437154991789386899998825990987423 255 831282617942688052797534658032464734548399509826 1163538571672743873732732932375190087207939001539 :=
        innerP_split 47426808440043841396942578228251196808973721413 1374340559572837437154991789386899998825990987423 128 255 161388167086489331462253066703889389102113758532 1136780708248179466415506441706607923158926250324
          831282617942688052797534658032464734548399509826 1163538571672743873732732932375190087207939001539 (by decide!)
      have sa30 : innerP 47426808440043841396942578228251196808973721413 1374340559572837437154991789386899998825990987423 255 831282617942688052797534658032464734548399509826 1163538571672743873732732932375190087207939001539
          = innerP 47426808440043841396942578228251196808973721413 1374340559572837437154991789386899998825990987423 127 158456085539080122943216785022977557804864106311 628917984354149221013502577900614792281923905392 :=
        innerP_split 47426808440043841396942578228251196808973721413 1374340559572837437154991789386899998825990987423 128 127 831282617942688052797534658032464734548399509826 1163538571672743873732732932375190087207939001539
          158456085539080122943216785022977557804864106311 628917984354149221013502577900614792281923905392 (by decide!)
      have sa31 : innerP 47426808440043841396942578228251196808973721413 1374340559572837437154991789386899998825990987423 127 158456085539080122943216785022977557804864106311 628917984354149221013502577900614792281923905392
          = (640271008311516926335682457408303198696977505913, 428184848982442692033260253010273098022762326465) := by decide!
      exact sa0.trans (sa1.trans (sa2.trans (sa3.trans (sa4.trans (sa5.trans (sa6.trans (sa7.trans (sa8.trans (sa9.trans (sa10.trans (sa11.trans (sa12.trans (sa13.trans (sa14.trans (sa15.trans (sa16.trans (sa17.trans (sa18.trans (sa19.trans (sa20.trans (sa21.trans (sa22.trans (sa23.trans (sa24.trans (sa25.trans (sa26.trans (sa27.trans (sa28.trans (sa29.trans (sa30.trans (sa31)))))))))))))))))))))))))))))))
    rw [hbig]
    decide!
  · have hist : istOf passNulBytes = 327324344972626657728518373833586416228948958421 := by
      decide!
    have host : ostOf passNulBytes = 1010788676563508282967967356350309219938320324085 := by
      decide!
    have hfn : hmacSha1 passNulBytes
        = hmacStates 327324344972626657728518373833586416228948958421
            1010788676563508282967967356350309219938320324085 := by
      funext msg
      show hmacStates (istOf passNulBytes) (ostOf passNulBytes) msg = _
      rw [hist, host]
    have hu1 : hmacStates 327324344972626657728518373833586416228948958421
          1010788676563508282967967356350309219938320324085 (saltNulBytes ++ be32 1)
        = natToBytesBE 20 729069621043249036908619738350922135143875741439 := by
      decide!
    rw [pbkdf2_ok passNulBytes saltNulBytes 4096 16 (by omega) (by omega)]
    have hblocks : pbkdf2Blocks passNulBytes saltNulBytes 4096 ((16 + 19) / 20) 1
        = pbkdf2T passNulBytes saltNulBytes 4096 1 ++ [] := rfl
    have hT : pbkdf2T passNulBytes saltNulBytes 4096 1
        = pbkdf2InnerF (hmacSha1 passNulBytes) 4095
            (hmacSha1 passNulBytes (saltNulBytes ++ be32 1))
            (hmacSha1 passNulBytes (saltNulBytes ++ be32 1)) := rfl
    rw [hblocks, hT, hfn, hu1]
    rw [pbkdf2InnerF_packed 327324344972626657728518373833586416228948958421
      1010788676563508282967967356350309219938320324085 4095
      729069621043249036908619738350922135143875741439
      729069621043249036908619738350922135143875741439 (by decide) (by decide)]
    have hbig : innerP 327324344972626657728518373833586416228948958421 1010788676563508282967967356350309219938320324085 4095 729069621043249036908619738350922135143875741439 729069621043249036908619738350922135143875741439
        = (951277628429305962759537918422174832182602958406, 496557683433305317311545000629710990313676096178) := by
      have sb0 : innerP 327324344972626657728518373833586416228948958421 1010788676563508282967967356350309219938320324085 4095 729069621043249036908619738350922135143875741439 729069621043249036908619738350922135143875741439
          = innerP 327324344972626657728518373833586416228948958421 1010788676563508282967967356350309219938320324085 3967 1257425647274197515880403381282156284329849450211 862638886108639033565471593329845743625804894449 :=
        innerP_split 327324344972626657728518373833586416228948958421 1010788676563508282967967356350309219938320324085 128 3967 729069621043249036908619738350922135143875741439 729069621043249036908619738350922135143875741439
          1257425647274197515880403381282156284329849450211 862638886108639033565471593329845743625804894449 (by decide!)
      have sb1 : innerP 327324344972626657728518373833586416228948958421 1010788676563508282967967356350309219938320324085 3967 1257425647274197515880403381282156284329849450211 862638886108639033565471593329845743625804894449
          = innerP 327324344972626657728518373833586416228948958421 1010788676563508282967967356350309219938320324085 3839 623387628342031023360393648535904491815749166080 704478376241155777638621604369934574996311950897 :=
        innerP_split 327324344972626657728518373833586416228948958421 1010788676563508282967967356350309219938320324085 128 3839 1257425647274197515880403381282156284329849450211 862638886108639033565471593329845743625804894449
          623387628342031023360393648535904491815749166080 704478376241155777638621604369934574996311950897 (by decide!)
      have sb2 : innerP 327324344972626657728518373833586416228948958421 1010788676563508282967967356350309219938320324085 3839 623387628342031023360393648535904491815749166080 704478376241155777638621604369934574996311950897
          = innerP 327324344972626657728518373833586416228948958421 1010788676563508282967967356350309219938320324085 3711 499733972390999965384393409046200233506310765891 129566199362691011620742138914575507283676723437 :=
        innerP_split 327324344972626657728518373833586416228948958421 1010788676563508282967967356350309219938320324085 128 3711 623387628342031023360393648535904491815749166080 704478376241155777638621604369934574996311950897
          499733972390999965384393409046200233506310765891 129566199362691011620742138914575507283676723437 (by decide!)
      have sb3 : innerP 327324344972626657728518373833586416228948958421 1010788676563508282967967356350309219938320324085 3711 499733972390999965384393409046200233506310765891 129566199362691011620742138914575507283676723437
          = innerP 327324344972626657728518373833586416228948958421 1010788676563508282967967356350309219938320324085 3583 782941385837650853378938419355936068945287686981 70105152073893484148672568835236599667984899124 :=
        innerP_split 327324344972626657728518373833586416228948958421 1010788676563508282967967356350309219938320324085 128 3583 499733972390999965384393409046200233506310765891 129566199362691011620742138914575507283676723437
          782941385837650853378938419355936068945287686981 70105152073893484148672568835236599667984899124 (by decide!)
      have sb4 : innerP 327324344972626657728518373833586416228948958421 1010788676563508282967967356350309219938320324085 3583 782941385837650853378938419355936068945287686981 70105152073893484148672568835236599667984899124
          = innerP 327324344972626657728518373833586416228948958421 1010788676563508282967967356350309219938320324085 3455 420817402054302251047779831180753382629987849778 377885004116708419640695166983484849725743902086 :=
        innerP_split 327324344972626657728518373833586416228948958421 1010788676563508282967967356350309219938320324085 128 3455 782941385837650853378938419355936068945287686981 70105152073893484148672568835236599667984899124
          420817402054302251047779831180753382629987849778 377885004116708419640695166983484849725743902086 (by decide!)
      have sb5 : innerP 327324344972626657728518373833586416228948958421 1010788676563508282967967356350309219938320324085 3455 420817402054302251047779831180753382629987849778 377885004116708419640695166983484849725743902086
          = innerP 327324344972626657728518373833586416228948958421 1010788676563508282967967356350309219938320324085 3327 374166332388912840367218849500480377166244682347 1191584718821026984950761483419221466755772765100 :=
        innerP_split 327324344972626657728518373833586416228948958421 1010788676563508282967967356350309219938320324085 128 3327 420817402054302251047779831180753382629987849778 377885004116708419640695166983484849725743902086
          374166332388912840367218849500480377166244682347 1191584718821026984950761483419221466755772765100 (by decide!)
      have sb6 : innerP 327324344972626657728518373833586416228948958421 1010788676563508282967967356350309219938320324085 3327 374166332388912840367218849500480377166244682347 1191584718821026984950761483419221466755772765100
          = innerP 327324344972626657728518373833586416228948958421 1010788676563508282967967356350309219938320324085 3199 1351083005596588045206982881417375064983639559595 1438090039300871971853732524084537400131397716727 :=
        innerP_split 327324344972626657728518373833586416228948958421 1010788676563508282967967356350309219938320324085 128 3199 374166332388912840367218849500480377166244682347 1191584718821026984950761483419221466755772765100
          1351083005596588045206982881417375064983639559595 1438090039300871971853732524084537400131397716727 (by decide!)
      have sb7 : innerP 327324344972626657728518373833586416228948958421 1010788676563508282967967356350309219938320324085 3199 1351083005596588045206982881417375064983639559595 1438090039300871971853732524084537400131397716727
          = innerP 327324344972626657728518373833586416228948958421 1010788676563508282967967356350309219938320324085 3071 793282263749899179458679267125350222836841695975 296330263613761588777538714942348157984328959549 :=
        innerP_split 327324344972626657728518373833586416228948958421 1010788676563508282967967356350309219938320324085 128 3071 1351083005596588045206982881417375064983639559595 1438090039300871971853732524084537400131397716727
          793282263749899179458679267125350222836841695975 296330263613761588777538714942348157984328959549 (by decide!)
      have sb8 : innerP 327324344972626657728518373833586416228948958421 1010788676563508282967967356350309219938320324085 3071 793282263749899179458679267125350222836841695975 296330263613761588777538714942348157984328959549
          = innerP 327324344972626657728518373833586416228948958421 1010788676563508282967967356350309219938320324085 2943 74272649315000771131038384141150392447033394015 548889475780684417047429370423379257900794757445 :=
        innerP_split 327324344972626657728518373833586416228948958421 1010788676563508282967967356350309219938320324085 128 2943 793282263749899179458679267125350222836841695975 296330263613761588777538714942348157984328959549
          74272649315000771131038384141150392447033394015 548889475780684417047429370423379257900794757445 (by decide!)
      have sb9 : innerP 327324344972626657728518373833586416228948958421 1010788676563508282967967356350309219938320324085 2943 74272649315000771131038384141150392447033394015 548889475780684417047429370423379257900794757445
          = innerP 327324344972626657728518373833586416228948958421 1010788676563508282967967356350309219938320324085 2815 30567021286429035048998274645322332680024749268 628532157168130181794046400484535780308022088928 :=
        innerP_split 327324344972626657728518373833586416228948958421 1010788676563508282967967356350309219938320324085 128 2815 74272649315000771131038384141150392447033394015 548889475780684417047429370423379257900794757445
          30567021286429035048998274645322332680024749268 628532157168130181794046400484535780308022088928 (by decide!)
      have sb10 : innerP 327324344972626657728518373833586416228948958421 1010788676563508282967967356350309219938320324085 2815 30567021286429035048998274645322332680024749268 628532157168130181794046400484535780308022088928
          = innerP 327324344972626657728518373833586416228948958421 1010788676563508282967967356350309219938320324085 2687 1018244620523816867942434444889849594531900446271 449447291831732116943039187361050462314025177079 :=
        innerP_split 327324344972626657728518373833586416228948958421 1010788676563508282967967356350309219938320324085 128 2687 30567021286429035048998274645322332680024749268 628532157168130181794046400484535780308022088928
          1018244620523816867942434444889849594531900446271 449447291831732116943039187361050462314025177079 (by decide!)
      have sb11 : innerP 327324344972626657728518373833586416228948958421 1010788676563508282967967356350309219938320324085 2687 1018244620523816867942434444889849594531900446271 449447291831732116943039187361050462314025177079
          = innerP 327324344972626657728518373833586416228948958421 1010788676563508282967967356350309219938320324085 2559 699749921920080093334407385858422527218695268103 1436078425116228270126959690817804629909153559352 :=
        innerP_split 327324344972626657728518373833586416228948958421 1010788676563508282967967356350309219938320324085 128 2559 1018244620523816867942434444889849594531900446271 449447291831732116943039187361050462314025177079
          699749921920080093334407385858422527218695268103 1436078425116228270126959690817804629909153559352 (by decide!)
      have sb12 : innerP 327324344972626657728518373833586416228948958421 1010788676563508282967967356350309219938320324085 2559 699749921920080093334407385858422527218695268103 1436078425116228270126959690817804629909153559352
          = innerP 327324344972626657728518373833586416228948958421 1010788676563508282967967356350309219938320324085 2431 199019139416021353179281640023651925018985278122 658295946652448476784042766919191547359661658836 :=
        innerP_split 327324344972626657728518373833586416228948958421 1010788676563508282967967356350309219938320324085 128 2431 699749921920080093334407385858422527218695268103 1436078425116228270126959690817804629909153559352
          199019139416021353179281640023651925018985278122 658295946652448476784042766919191547359661658836 (by decide!)
      have sb13 : innerP 327324344972626657728518373833586416228948958421 1010788676563508282967967356350309219938320324085 2431 199019139416021353179281640023651925018985278122 658295946652448476784042766919191547359661658836
          = innerP 327324344972626657728518373833586416228948958421 1010788676563508282967967356350309219938320324085 2303 962433662356092695441008424093477865299323934820 168402445026689281463610364103728884753129708762 :=
        innerP_split 327324344972626657728518373833586416228948958421 1010788676563508282967967356350309219938320324085 128 2303 199019139416021353179281640023651925018985278122 658295946652448476784042766919191547359661658836
          962433662356092695441008424093477865299323934820 168402445026689281463610364103728884753129708762 (by decide!)
      have sb14 : innerP 327324344972626657728518373833586416228948958421 1010788676563508282967967356350309219938320324085 2303 962433662356092695441008424093477865299323934820 168402445026689281463610364103728884753129708762
          = innerP 327324344972626657728518373833586416228948958421 1010788676563508282967967356350309219938320324085 2175 1283408394614268829123016734354555203408760504913 564322731720068088851892966773916466696658002543 :=
        innerP_split 327324344972626657728518373833586416228948958421 1010788676563508282967967356350309219938320324085 128 2175 962433662356092695441008424093477865299323934820 168402445026689281463610364103728884753129708762
          1283408394614268829123016734354555203408760504913 564322731720068088851892966773916466696658002543 (by decide!)
      have sb15 : innerP 327324344972626657728518373833586416228948958421 1010788676563508282967967356350309219938320324085 2175 1283408394614268829123016734354555203408760504913 564322731720068088851892966773916466696658002543
          = innerP 327324344972626657728518373833586416228948958421 1010788676563508282967967356350309219938320324085 2047 1340423015953828847996392934297114100415937486005 417583550723213967908199436876832731186142617445 :=
        innerP_split 327324344972626657728518373833586416228948958421 1010788676563508282967967356350309219938320324085 128 2047 1283408394614268829123016734354555203408760504913 564322731720068088851892966773916466696658002543
          1340423015953828847996392934297114100415937486005 417583550723213967908199436876832731186142617445 (by decide!)
      have sb16 : innerP 327324344972626657728518373833586416228948958421 1010788676563508282967967356350309219938320324085 2047 1340423015953828847996392934297114100415937486005 417583550723213967908199436876832731186142617445
          = innerP 327324344972626657728518373833586416228948958421 1010788676563508282967967356350309219938320324085 1919 1281685908181276763335730377753421365368592921893 80706776404724205565683595795776395975238490438 :=
        innerP_split 327324344972626657728518373833586416228948958421 1010788676563508282967967356350309219938320324085 128 1919 1340423015953828847996392934297114100415937486005 417583550723213967908199436876832731186142617445
          1281685908181276763335730377753421365368592921893 80706776404724205565683595795776395975238490438 (by decide!)
      have sb17 : innerP 327324344972626657728518373833586416228948958421 1010788676563508282967967356350309219938320324085 1919 1281685908181276763335730377753421365368592921893 80706776404724205565683595795776395975238490438
          = innerP 327324344972626657728518373833586416228948958421 1010788676563508282967967356350309219938320324085 1791 351595836712606714949307143853347040651694235439 1100319757876217099746325742919451773306664745661 :=
        innerP_split 327324344972626657728518373833586416228948958421 1010788676563508282967967356350309219938320324085 128 1791 1281685908181276763335730377753421365368592921893 80706776404724205565683595795776395975238490438
          351595836712606714949307143853347040651694235439 1100319757876217099746325742919451773306664745661 (by decide!)
      have sb18 : innerP 327324344972626657728518373833586416228948958421 1010788676563508282967967356350309219938320324085 1791 351595836712606714949307143853347040651694235439 1100319757876217099746325742919451773306664745661
          = innerP 327324344972626657728518373833586416228948958421 1010788676563508282967967356350309219938320324085 1663 94172371535122206871698061408407714649363099700 323676556426927903265948772469684815087112877883 :=
        innerP_split 327324344972626657728518373833586416228948958421 1010788676563508282967967356350309219938320324085 128 1663 351595836712606714949307143853347040651694235439 1100319757876217099746325742919451773306664745661
          94172371535122206871698061408407714649363099700 323676556426927903265948772469684815087112877883 (by decide!)
      have sb19 : innerP 327324344972626657728518373833586416228948958421 1010788676563508282967967356350309219938320324085 1663 94172371535122206871698061408407714649363099700 323676556426927903265948772469684815087112877883
          = innerP 327324344972626657728518373833586416228948958421 1010788676563508282967967356350309219938320324085 1535 767836062044864981648676992146777391511322358160 297982106372351204667341344687693939886011618063 :=
        innerP_split 327324344972626657728518373833586416228948958421 1010788676563508282967967356350309219938320324085 128 1535 94172371535122206871698061408407714649363099700 323676556426927903265948772469684815087112877883
          767836062044864981648676992146777391511322358160 297982106372351204667341344687693939886011618063 (by decide!)
      have sb20 : innerP 327324344972626657728518373833586416228948958421 1010788676563508282967967356350309219938320324085 1535 767836062044864981648676992146777391511322358160 297982106372351204667341344687693939886011618063
          = innerP 327324344972626657728518373833586416228948958421 1010788676563508282967967356350309219938320324085 1407 970941617887879939551373923293136825037101364427 963943616207690591639634765014625393765776883429 :=
        innerP_split 327324344972626657728518373833586416228948958421 1010788676563508282967967356350309219938320324085 128 1407 767836062044864981648676992146777391511322358160 297982106372351204667341344687693939886011618063
          970941617887879939551373923293136825037101364427 963943616207690591639634765014625393765776883429 (by decide!)
      have sb21 : innerP 327324344972626657728518373833586416228948958421 1010788676563508282967967356350309219938320324085 1407 970941617887879939551373923293136825037101364427 963943616207690591639634765014625393765776883429
          = innerP 327324344972626657728518373833586416228948958421 1010788676563508282967967356350309219938320324085 1279 796656215423866646689788744267321246251050029800 881073668568322203527015365013329889133717038809 :=
        innerP_split 327324344972626657728518373833586416228948958421 1010788676563508282967967356350309219938320324085 128 1279 970941617887879939551373923293136825037101364427 963943616207690591639634765014625393765776883429
          796656215423866646689788744267321246251050029800 881073668568322203527015365013329889133717038809 (by decide!)
      have sb22 : innerP 327324344972626657728518373833586416228948958421 1010788676563508282967967356350309219938320324085 1279 796656215423866646689788744267321246251050029800 881073668568322203527015365013329889133717038809
          = innerP 327324344972626657728518373833586416228948958421 1010788676563508282967967356350309219938320324085 1151 809226901023858281786253093828034339804020605582 893062932537292936515325941765354574232661424372 :=
        innerP_split 327324344972626657728518373833586416228948958421 1010788676563508282967967356350309219938320324085 128 1151 796656215423866646689788744267321246251050029800 881073668568322203527015365013329889133717038809
          809226901023858281786253093828034339804020605582 893062932537292936515325941765354574232661424372 (by decide!)
      have sb23 : innerP 327324344972626657728518373833586416228948958421 1010788676563508282967967356350309219938320324085 1151 809226901023858281786253093828034339804020605582 893062932537292936515325941765354574232661424372
          = innerP 327324344972626657728518373833586416228948958421 1010788676563508282967967356350309219938320324085 1023 781426646426989555613192631215456288344441558428 770401336416850572614870602941611544569463576441 :=
        innerP_split 327324344972626657728518373833586416228948958421 1010788676563508282967967356350309219938320324085 128 1023 809226901023858281786253093828034339804020605582 893062932537292936515325941765354574232661424372
          781426646426989555613192631215456288344441558428 770401336416850572614870602941611544569463576441 (by decide!)
      have sb24 : innerP 327324344972626657728518373833586416228948958421 1010788676563508282967967356350309219938320324085 1023 781426646426989555613192631215456288344441558428 770401336416850572614870602941611544569463576441
          = innerP 327324344972626657728518373833586416228948958421 1010788676563508282967967356350309219938320324085 895 859614205080930850212200292303934786435978722773 325818400586166058001180961734482649924503792774 :=
        innerP_split 327324344972626657728518373833586416228948958421 1010788676563508282967967356350309219938320324085 128 895 781426646426989555613192631215456288344441558428 770401336416850572614870602941611544569463576441
          859614205080930850212200292303934786435978722773 325818400586166058001180961734482649924503792774 (by decide!)
      have sb25 : innerP 327324344972626657728518373833586416228948958421 1010788676563508282967967356350309219938320324085 895 859614205080930850212200292303934786435978722773 325818400586166058001180961734482649924503792774
          = innerP 327324344972626657728518373833586416228948958421 1010788676563508282967967356350309219938320324085 767 532805282257645418722306743515035853938186169606 1198271803457059609381274817967405009545007725646 :=
        innerP_split 327324344972626657728518373833586416228948958421 1010788676563508282967967356350309219938320324085 128 767 859614205080930850212200292303934786435978722773 325818400586166058001180961734482649924503792774
          532805282257645418722306743515035853938186169606 1198271803457059609381274817967405009545007725646 (by decide!)
      have sb26 : innerP 327324344972626657728518373833586416228948958421 1010788676563508282967967356350309219938320324085 767 532805282257645418722306743515035853938186169606 1198271803457059609381274817967405009545007725646
          = innerP 327324344972626657728518373833586416228948958421 1010788676563508282967967356350309219938320324085 639 866296562655481651244927808793445034881403993637 1205384434988042281465037504608151165958625570299 :=
        innerP_split 327324344972626657728518373833586416228948958421 1010788676563508282967967356350309219938320324085 128 639 532805282257645418722306743515035853938186169606 1198271803457059609381274817967405009545007725646
          866296562655481651244927808793445034881403993637 1205384434988042281465037504608151165958625570299 (by decide!)
      have sb27 : innerP 327324344972626657728518373833586416228948958421 1010788676563508282967967356350309219938320324085 639 866296562655481651244927808793445034881403993637 1205384434988042281465037504608151165958625570299
          = innerP 327324344972626657728518373833586416228948958421 1010788676563508282967967356350309219938320324085 511 1184926327464918661509008264626470565778307042824 1403120374815134899804038031159263854523711214060 :=
        innerP_split 327324344972626657728518373833586416228948958421 1010788676563508282967967356350309219938320324085 128 511 866296562655481651244927808793445034881403993637 1205384434988042281465037504608151165958625570299
          1184926327464918661509008264626470565778307042824 1403120374815134899804038031159263854523711214060 (by decide!)
      have sb28 : innerP 327324344972626657728518373833586416228948958421 1010788676563508282967967356350309219938320324085 511 1184926327464918661509008264626470565778307042824 1403120374815134899804038031159263854523711214060
          = innerP 327324344972626657728518373833586416228948958421 1010788676563508282967967356350309219938320324085 383 244840243053370405466831422880766083893011722113 271016861765363531186494855392817589762143637550 :=
        innerP_split 327324344972626657728518373833586416228948958421 1010788676563508282967967356350309219938320324085 128 383 1184926327464918661509008264626470565778307042824 1403120374815134899804038031159263854523711214060
          244840243053370405466831422880766083893011722113 271016861765363531186494855392817589762143637550 (by decide!)
      have sb29 : innerP 327324344972626657728518373833586416228948958421 1010788676563508282967967356350309219938320324085 383 244840243053370405466831422880766083893011722113 271016861765363531186494855392817589762143637550
          = innerP 327324344972626657728518373833586416228948958421 1010788676563508282967967356350309219938320324085 255 734798747104739714407879996525757241418818542166 226639980777331738834848911828917892651727337131 :=
        innerP_split 327324344972626657728518373833586416228948958421 1010788676563508282967967356350309219938320324085 128 255 244840243053370405466831422880766083893011722113 271016861765363531186494855392817589762143637550
          734798747104739714407879996525757241418818542166 226639980777331738834848911828917892651727337131 (by decide!)
      have sb30 : innerP 327324344972626657728518373833586416228948958421 1010788676563508282967967356350309219938320324085 255 734798747104739714407879996525757241418818542166 226639980777331738834848911828917892651727337131
          = innerP 327324344972626657728518373833586416228948958421 1010788676563508282967967356350309219938320324085 127 505244160330550894502390330302156396547005517017 971098572209168971575502899013949532902115139304 :=
        innerP_split 327324344972626657728518373833586416228948958421 1010788676563508282967967356350309219938320324085 128 127 734798747104739714407879996525757241418818542166 226639980777331738834848911828917892651727337131
          505244160330550894502390330302156396547005517017 971098572209168971575502899013949532902115139304 (by decide!)
      have sb31 : innerP 327324344972626657728518373833586416228948958421 1010788676563508282967967356350309219938320324085 127 505244160330550894502390330302156396547005517017 971098572209168971575502899013949532902115139304
          = (951277628429305962759537918422174832182602958406, 496557683433305317311545000629710990313676096178) := by decide!
      exact sb0.trans (sb1.trans (sb2.trans (sb3.trans (sb4.trans (sb5.trans (sb6.trans (sb7.trans (sb8.trans (sb9.trans (sb10.trans (sb11.trans (sb12.trans (sb13.trans (sb14.trans (sb15.trans (sb16.trans (sb17.trans (sb18.trans (sb19.trans (sb20.trans (sb21.trans (sb22.trans (sb23.trans (sb24.trans (sb25.trans (sb26.trans (sb27.trans (sb28.trans (sb29.trans (sb30.trans (sb31)))))))))))))))))))))))))))))))
    rw [hbig]
    decide!
